import Mathlib

/-!
# 3DCubeRenderer: the cube and square programs as call traces

Shallow embedding of `src/cube.cpp` and `src/square.cpp`.

* Every call into the windowing library (GLFW/GLEW) or the graphics driver (OpenGL) is
  recorded, in program order, as a `Call` in the `trace` of a `World`.  Values that a
  collaborator returns (init status, window pointer, close flag, clock, object names,
  uniform locations) are read from an `Env`, with no assumption on what it answers.
* The render loops take fuel: `none` means the window did not ask to close within the
  fuel given.  Every statement about a whole run shows that the run returns.
* The driver's set of live objects is a function of the trace (`liveAfter`).
* `float` is read as an exact field `K`; the transcendental primitives of the C++ math
  library are fields of `MathLib K`, so every definition stays executable.  The GLM
  functions the cube program calls are not part of the repository sources and are
  modelled by the formulas of the library.
-/

namespace CubeRenderer

/-! ## Linear algebra (GLM) -/

/-- Primitives of the C/C++ math library that GLM calls. -/
structure MathLib (K : Type) where
  cos : K → K
  sin : K → K
  tan : K → K
  inversesqrt : K → K
  pi : K

/-- The type `glm::vec3`. -/
structure Vec3 (K : Type) where
  x : K
  y : K
  z : K
deriving DecidableEq, Repr

/-- The type `glm::vec4`. -/
structure Vec4 (K : Type) where
  x : K
  y : K
  z : K
  w : K
deriving DecidableEq, Repr

/-- The type `glm::mat4`: four columns, `c0` is `m[0]`. -/
structure Mat4 (K : Type) where
  c0 : Vec4 K
  c1 : Vec4 K
  c2 : Vec4 K
  c3 : Vec4 K
deriving DecidableEq, Repr

section Glm
variable {K : Type} [Field K]

/-- Scalar times `vec3`. -/
def Vec3.smul (a : K) (v : Vec3 K) : Vec3 K := ⟨a * v.x, a * v.y, a * v.z⟩

/-- The function `glm::dot` on `vec3`. -/
def Vec3.dot (u v : Vec3 K) : K := u.x * v.x + u.y * v.y + u.z * v.z

/-- Componentwise sum of `vec4`. -/
def Vec4.add (u v : Vec4 K) : Vec4 K := ⟨u.x + v.x, u.y + v.y, u.z + v.z, u.w + v.w⟩

/-- The product `v * a` of a `vec4` with a scalar. -/
def Vec4.scale (v : Vec4 K) (a : K) : Vec4 K := ⟨v.x * a, v.y * a, v.z * a, v.w * a⟩

/-- Modelled from the spec: the constructor `glm::mat4(s)`, library code that is not
under `src/`; `s` on the diagonal, zero elsewhere (`identity` in section 4.3). -/
def Mat4.diag (s : K) : Mat4 K :=
  ⟨⟨s, 0, 0, 0⟩, ⟨0, s, 0, 0⟩, ⟨0, 0, s, 0⟩, ⟨0, 0, 0, s⟩⟩

/-- Modelled from the spec: the product `m * v` of a `mat4` with a column `vec4`, as the
vertex stage applies it (section 4.3); the columns of `m` weighted by the components of
`v`. -/
def Mat4.mulVec (m : Mat4 K) (v : Vec4 K) : Vec4 K :=
  ((m.c0.scale v.x).add (m.c1.scale v.y)).add ((m.c2.scale v.z).add (m.c3.scale v.w))

/-- Modelled from the spec: `glm::value_ptr`, library code that is not under `src/`; the
sixteen entries in column-major order (section 4.2). -/
def value_ptr (m : Mat4 K) : List K :=
  [m.c0.x, m.c0.y, m.c0.z, m.c0.w, m.c1.x, m.c1.y, m.c1.z, m.c1.w,
   m.c2.x, m.c2.y, m.c2.z, m.c2.w, m.c3.x, m.c3.y, m.c3.z, m.c3.w]

/-- Modelled from the spec: `glm::normalize`, library code that is not under `src/`;
the library scales `v` by `inversesqrt(dot(v, v))`. -/
def normalize (L : MathLib K) (v : Vec3 K) : Vec3 K :=
  Vec3.smul (L.inversesqrt (Vec3.dot v v)) v

/-- Modelled from the spec: `glm::radians`, library code that is not under `src/`;
degrees times pi / 180. -/
def radians (L : MathLib K) (degrees : K) : K := degrees * (L.pi / 180)

/-- Modelled from the spec: `glm::rotate(m, angle, v)`, library code that is not under
`src/`; the axis-angle formula with the axis normalised (section 4.3 of the spec,
`model = rotate(identity, elapsedSeconds, axis)`). -/
def rotate (L : MathLib K) (m : Mat4 K) (angle : K) (v : Vec3 K) : Mat4 K :=
  let c := L.cos angle
  let s := L.sin angle
  let axis := normalize L v
  let temp := Vec3.smul (1 - c) axis
  let r00 := c + temp.x * axis.x
  let r01 := temp.x * axis.y + s * axis.z
  let r02 := temp.x * axis.z - s * axis.y
  let r10 := temp.y * axis.x - s * axis.z
  let r11 := c + temp.y * axis.y
  let r12 := temp.y * axis.z + s * axis.x
  let r20 := temp.z * axis.x + s * axis.y
  let r21 := temp.z * axis.y - s * axis.x
  let r22 := c + temp.z * axis.z
  ⟨((m.c0.scale r00).add (m.c1.scale r01)).add (m.c2.scale r02),
   ((m.c0.scale r10).add (m.c1.scale r11)).add (m.c2.scale r12),
   ((m.c0.scale r20).add (m.c1.scale r21)).add (m.c2.scale r22),
   m.c3⟩

/-- Modelled from the spec: `glm::translate(m, v)`, library code that is not under
`src/`; the last column becomes `m[0]*v.x + m[1]*v.y + m[2]*v.z + m[3]`. -/
def translate (m : Mat4 K) (v : Vec3 K) : Mat4 K :=
  ⟨m.c0, m.c1, m.c2,
   (((m.c0.scale v.x).add (m.c1.scale v.y)).add (m.c2.scale v.z)).add m.c3⟩

/-- Modelled from the spec: `glm::perspective(fovy, aspect, zNear, zFar)`, library code
that is not under `src/`; the right-handed formula with clip depth in [-1, 1]. -/
def perspective (L : MathLib K) (fovy aspect zNear zFar : K) : Mat4 K :=
  let tanHalfFovy := L.tan (fovy / 2)
  ⟨⟨1 / (aspect * tanHalfFovy), 0, 0, 0⟩,
   ⟨0, 1 / tanHalfFovy, 0, 0⟩,
   ⟨0, 0, -(zFar + zNear) / (zFar - zNear), -1⟩,
   ⟨0, 0, -(2 * zFar * zNear) / (zFar - zNear), 0⟩⟩

/-- The upper-left 3x3 block of a `mat4` as a matrix: the entry in row `i`, column `j` is
component `i` of column `j`. -/
def Mat4.upper3 (m : Mat4 K) : Matrix (Fin 3) (Fin 3) K :=
  fun i j =>
    match i, j with
    | 0, 0 => m.c0.x
    | 0, 1 => m.c1.x
    | 0, 2 => m.c2.x
    | 1, 0 => m.c0.y
    | 1, 1 => m.c1.y
    | 1, 2 => m.c2.y
    | 2, 0 => m.c0.z
    | 2, 1 => m.c1.z
    | 2, 2 => m.c2.z

end Glm

/-! ## Collaborator calls -/

/-- Shader stage kinds passed to `glCreateShader`. -/
inductive ShaderType where
  | GL_VERTEX_SHADER
  | GL_FRAGMENT_SHADER
deriving DecidableEq, Repr

/-- Buffer binding targets. -/
inductive BufferTarget where
  | GL_ARRAY_BUFFER
  | GL_ELEMENT_ARRAY_BUFFER
deriving DecidableEq, Repr

/-- Bits of the mask passed to `glClear`; a mask is the list of the bits or-ed together. -/
inductive ClearBit where
  | GL_COLOR_BUFFER_BIT
  | GL_DEPTH_BUFFER_BIT
deriving DecidableEq, Repr

/-- Primitive modes of a draw call. -/
inductive DrawMode where
  | GL_TRIANGLES
deriving DecidableEq, Repr

/-- Component and index data types. -/
inductive DataType where
  | GL_FLOAT
  | GL_UNSIGNED_INT
deriving DecidableEq, Repr

/-- Usage hints of `glBufferData`. -/
inductive Usage where
  | GL_STATIC_DRAW
deriving DecidableEq, Repr

/-- Capabilities passed to `glEnable`. -/
inductive Capability where
  | GL_DEPTH_TEST
deriving DecidableEq, Repr

/-- The array handed to `glBufferData`. -/
inductive BufferPayload (K : Type) where
  | floats (data : List K)
  | uints (data : List Nat)
deriving DecidableEq, Repr

/-- One call into the windowing library or the graphics driver, with its arguments and,
for a call that returns a value the program reads, the value returned (`ret`).
`glGetShaderiv` and `glGetProgramiv` are the driver's compile and link status queries. -/
inductive Call (K : Type) where
  | glfwInit (ret : Int)
  | glfwCreateWindow (width height : Nat) (title : String) (ret : Nat)
  | glfwTerminate
  | glfwMakeContextCurrent (window : Nat)
  | glewInit
  | glfwWindowShouldClose (window : Nat) (ret : Int)
  | glfwGetTime (ret : K)
  | glfwSwapBuffers (window : Nat)
  | glfwPollEvents
  | glCreateShader (kind : ShaderType) (ret : Nat)
  | glShaderSource (shader count : Nat) (source : String)
  | glCompileShader (shader : Nat)
  | glGetShaderiv (shader : Nat) (ret : Int)
  | glCreateProgram (ret : Nat)
  | glAttachShader (program shader : Nat)
  | glLinkProgram (program : Nat)
  | glGetProgramiv (program : Nat) (ret : Int)
  | glDeleteShader (shader : Nat)
  | glDeleteProgram (program : Nat)
  | glUseProgram (program : Nat)
  | glGetUniformLocation (program : Nat) (name : String) (ret : Int)
  | glUniformMatrix4fv (location : Int) (count : Nat) (transpose : Bool) (value : List K)
  | glGenVertexArrays (n : Nat) (arrays : List Nat)
  | glGenBuffers (n : Nat) (buffers : List Nat)
  | glBindVertexArray (array : Nat)
  | glBindBuffer (target : BufferTarget) (buffer : Nat)
  | glBufferData (target : BufferTarget) (size : Nat) (data : BufferPayload K) (usage : Usage)
  | glVertexAttribPointer (index size : Nat) (kind : DataType) (normalized : Bool)
      (stride pointer : Nat)
  | glEnableVertexAttribArray (index : Nat)
  | glEnable (cap : Capability)
  | glClear (mask : List ClearBit)
  | glDrawArrays (mode : DrawMode) (first count : Nat)
  | glDrawElements (mode : DrawMode) (count : Nat) (kind : DataType) (indices : Nat)
  | glDeleteVertexArrays (n : Nat) (arrays : List Nat)
  | glDeleteBuffers (n : Nat) (buffers : List Nat)
deriving DecidableEq, Repr

/-- What the collaborators answer.  `shouldClose k` is the answer to the k-th close check,
`time k` to the k-th clock read, `handle k` is the k-th object name the driver hands out
(`glCreateShader`, `glCreateProgram`, `glGenVertexArrays`, `glGenBuffers`). -/
structure Env (K : Type) where
  initResult : Int
  windowHandle : Nat
  shouldClose : Nat → Int
  time : Nat → K
  handle : Nat → Nat
  uniformLocation : Nat → String → Int
  math : MathLib K

/-- Program state that the collaborators can observe: the calls made so far and how many
answers of each kind were consumed. -/
structure World (K : Type) where
  trace : List (Call K)
  allocs : Nat
  checks : Nat
  clock : Nat

/-- The state in which `main` starts. -/
def World.init (K : Type) : World K := ⟨[], 0, 0, 0⟩

section Program
variable {K : Type}

/-- Record a call. -/
def emit (c : Call K) (w : World K) : World K := { w with trace := w.trace ++ [c] }

/-- The next object name of the driver. -/
def nextName (env : Env K) (w : World K) : Nat × World K :=
  (env.handle w.allocs, { w with allocs := w.allocs + 1 })

/-- The call `glCreateShader(kind)`. -/
def glCreateShader (env : Env K) (kind : ShaderType) (w : World K) : Nat × World K :=
  let (h, w) := nextName env w
  (h, emit (.glCreateShader kind h) w)

/-- The call `glCreateProgram()`. -/
def glCreateProgram (env : Env K) (w : World K) : Nat × World K :=
  let (h, w) := nextName env w
  (h, emit (.glCreateProgram h) w)

/-- The call `glGenVertexArrays(1, &name)`. -/
def glGenVertexArrays (env : Env K) (w : World K) : Nat × World K :=
  let (h, w) := nextName env w
  (h, emit (.glGenVertexArrays 1 [h]) w)

/-- The call `glGenBuffers(1, &name)`. -/
def glGenBuffers (env : Env K) (w : World K) : Nat × World K :=
  let (h, w) := nextName env w
  (h, emit (.glGenBuffers 1 [h]) w)

/-- The call `glfwWindowShouldClose(window)`. -/
def glfwWindowShouldClose (env : Env K) (window : Nat) (w : World K) : Int × World K :=
  let r := env.shouldClose w.checks
  (r, emit (.glfwWindowShouldClose window r) { w with checks := w.checks + 1 })

/-- The call `glfwGetTime()`. -/
def glfwGetTime (env : Env K) (w : World K) : K × World K :=
  let t := env.time w.clock
  (t, emit (.glfwGetTime t) { w with clock := w.clock + 1 })

/-- The call `glGetUniformLocation(program, name)`. -/
def glGetUniformLocation (env : Env K) (program : Nat) (name : String) (w : World K) :
    Int × World K :=
  let loc := env.uniformLocation program name
  (loc, emit (.glGetUniformLocation program name loc) w)

/-- Bytes of a `float`. -/
def sizeofFloat : Nat := 4

/-- Bytes of an `unsigned int`. -/
def sizeofUInt : Nat := 4

/-- The function `createShaderProgram` (cube.cpp 41-63, square.cpp 26-48); the two
files differ only in the global shader texts, passed here as arguments. -/
def createShaderProgram (env : Env K) (vertexShaderSource fragmentShaderSource : String)
    (w : World K) : Nat × World K :=
  let (vertexShader, w) := glCreateShader env .GL_VERTEX_SHADER w
  let w := emit (.glShaderSource vertexShader 1 vertexShaderSource) w
  let w := emit (.glCompileShader vertexShader) w
  let (fragmentShader, w) := glCreateShader env .GL_FRAGMENT_SHADER w
  let w := emit (.glShaderSource fragmentShader 1 fragmentShaderSource) w
  let w := emit (.glCompileShader fragmentShader) w
  let (shaderProgram, w) := glCreateProgram env w
  let w := emit (.glAttachShader shaderProgram vertexShader) w
  let w := emit (.glAttachShader shaderProgram fragmentShader) w
  let w := emit (.glLinkProgram shaderProgram) w
  let w := emit (.glDeleteShader vertexShader) w
  let w := emit (.glDeleteShader fragmentShader) w
  (shaderProgram, w)

end Program

/-! ## src/cube.cpp -/

/-- The global `vertexShaderSource` of cube.cpp (lines 9-25). -/
def cubeVertexShaderSource : String :=
  "\n    // Specifying the version of GLSL (OpenGL Shading Language)\n    #version 330 core  \n    // Input vertex attributes (in this case, only position)\n    layout (location = 0) in vec3 aPos;  \n\n    // Transformation matrices\n    uniform mat4 model;  \n    uniform mat4 view;\n    uniform mat4 projection;\n\n    void main()\n    \x7b\n        // Convert the 3D position of the vertex for 2D drawing\n        gl_Position = projection * view * model * vec4(aPos, 1.0);\n    \x7d\n"

/-- The global `fragmentShaderSource` of cube.cpp (lines 28-38). -/
def cubeFragmentShaderSource : String :=
  "\n    #version 330 core\n    // Output color of the fragment\n    out vec4 FragColor;\n\n    void main()\n    \x7b\n        // Set the fragment color\n        FragColor = vec4(1.0f, 0.5f, 0.2f, 1.0f);\n    \x7d\n"

/-- The array `vertices` of cube.cpp (lines 85-128), read as exact numbers. -/
def cubeVertices (K : Type) [Field K] : List K :=
  [ -0.5, -0.5, -0.5,
     0.5, -0.5, -0.5,
     0.5,  0.5, -0.5,
     0.5,  0.5, -0.5,
    -0.5,  0.5, -0.5,
    -0.5, -0.5, -0.5,

    -0.5, -0.5,  0.5,
     0.5, -0.5,  0.5,
     0.5,  0.5,  0.5,
     0.5,  0.5,  0.5,
    -0.5,  0.5,  0.5,
    -0.5, -0.5,  0.5,

    -0.5,  0.5,  0.5,
    -0.5,  0.5, -0.5,
    -0.5, -0.5, -0.5,
    -0.5, -0.5, -0.5,
    -0.5, -0.5,  0.5,
    -0.5,  0.5,  0.5,

     0.5,  0.5,  0.5,
     0.5,  0.5, -0.5,
     0.5, -0.5, -0.5,
     0.5, -0.5, -0.5,
     0.5, -0.5,  0.5,
     0.5,  0.5,  0.5,

    -0.5, -0.5, -0.5,
     0.5, -0.5, -0.5,
     0.5, -0.5,  0.5,
     0.5, -0.5,  0.5,
    -0.5, -0.5,  0.5,
    -0.5, -0.5, -0.5,

    -0.5,  0.5, -0.5,
     0.5,  0.5, -0.5,
     0.5,  0.5,  0.5,
     0.5,  0.5,  0.5,
    -0.5,  0.5,  0.5,
    -0.5,  0.5, -0.5 ]

section CubeProgram
variable {K : Type} [Field K]

/-- The matrix `model` of cube.cpp line 163 for the clock value `t`. -/
def cubeModel (L : MathLib K) (t : K) : Mat4 K :=
  rotate L (Mat4.diag 1) t ⟨1, 1, 0⟩

/-- The matrix `view` of cube.cpp line 164. -/
def cubeView : Mat4 K :=
  translate (Mat4.diag 1) ⟨0, 0, -3⟩

/-- The matrix `projection` of cube.cpp line 165. -/
def cubeProjection (L : MathLib K) : Mat4 K :=
  perspective L (radians L 45) (800 / 600) 0.1 100

/-- The body of the render loop of cube.cpp (lines 155-186).  The cast of the clock value
to `float` is the identity in exact arithmetic. -/
def cubeFrame (env : Env K) (window VAO : Nat) (w : World K) : World K :=
  let w := emit (.glClear [.GL_COLOR_BUFFER_BIT, .GL_DEPTH_BUFFER_BIT]) w
  let (shaderProgram, w) :=
    createShaderProgram env cubeVertexShaderSource cubeFragmentShaderSource w
  let w := emit (.glUseProgram shaderProgram) w
  let (time, w) := glfwGetTime env w
  let model := cubeModel env.math time
  let view : Mat4 K := cubeView
  let projection := cubeProjection env.math
  let (modelLoc, w) := glGetUniformLocation env shaderProgram "model" w
  let (viewLoc, w) := glGetUniformLocation env shaderProgram "view" w
  let (projLoc, w) := glGetUniformLocation env shaderProgram "projection" w
  let w := emit (.glUniformMatrix4fv modelLoc 1 false (value_ptr model)) w
  let w := emit (.glUniformMatrix4fv viewLoc 1 false (value_ptr view)) w
  let w := emit (.glUniformMatrix4fv projLoc 1 false (value_ptr projection)) w
  let w := emit (.glBindVertexArray VAO) w
  let w := emit (.glDrawArrays .GL_TRIANGLES 0 36) w
  let w := emit (.glfwSwapBuffers window) w
  let w := emit .glfwPollEvents w
  emit (.glDeleteProgram shaderProgram) w

/-- The render loop of cube.cpp (lines 154-187); `none` when the fuel runs out before the
window asks to close. -/
def cubeLoop (env : Env K) (window VAO : Nat) : Nat → World K → Option (World K)
  | 0, _ => none
  | fuel + 1, w =>
    let (close, w) := glfwWindowShouldClose env window w
    if close = 0 then cubeLoop env window VAO fuel (cubeFrame env window VAO w)
    else some w

/-- Lines 78-151 of cube.cpp: context, GLEW, geometry upload, depth test.  Returns the
names `(VAO, VBO)`. -/
def cubeSetup (env : Env K) (window : Nat) (w : World K) : (Nat × Nat) × World K :=
  let w := emit (.glfwMakeContextCurrent window) w
  let w := emit .glewInit w
  let vertices := cubeVertices K
  let (VAO, w) := glGenVertexArrays env w
  let (VBO, w) := glGenBuffers env w
  let w := emit (.glBindVertexArray VAO) w
  let w := emit (.glBindBuffer .GL_ARRAY_BUFFER VBO) w
  let w := emit (.glBufferData .GL_ARRAY_BUFFER (sizeofFloat * vertices.length)
    (.floats vertices) .GL_STATIC_DRAW) w
  let w := emit (.glVertexAttribPointer 0 3 .GL_FLOAT false (3 * sizeofFloat) 0) w
  let w := emit (.glEnableVertexAttribArray 0) w
  let w := emit (.glBindBuffer .GL_ARRAY_BUFFER 0) w
  let w := emit (.glBindVertexArray 0) w
  let w := emit (.glEnable .GL_DEPTH_TEST) w
  ((VAO, VBO), w)

/-- The function `main` of cube.cpp (lines 65-195): exit status and final state. -/
def cubeMain (env : Env K) (fuel : Nat) : Option (Int × World K) :=
  let w := World.init K
  let w := emit (.glfwInit env.initResult) w
  if env.initResult = 0 then some (-1, w)
  else
    let window := env.windowHandle
    let w := emit (.glfwCreateWindow 800 600 "3D Cube" window) w
    if window = 0 then some (-1, emit .glfwTerminate w)
    else
      let ((VAO, VBO), w) := cubeSetup env window w
      match cubeLoop env window VAO fuel w with
      | none => none
      | some w =>
        let w := emit (.glDeleteVertexArrays 1 [VAO]) w
        let w := emit (.glDeleteBuffers 1 [VBO]) w
        let w := emit .glfwTerminate w
        some (0, w)

end CubeProgram

/-! ## src/square.cpp -/

/-- The global `vertexShaderSource` of square.cpp (lines 6-13). -/
def squareVertexShaderSource : String :=
  "\n    #version 330 core                    // Version of GLSL.\n    layout (location = 0) in vec2 aPos;  // Input vertex position.\n\n    void main() \x7b\n        gl_Position = vec4(aPos, 0.0, 1.0);  // Setting the final vertex position.\n    \x7d\n"

/-- The global `fragmentShaderSource` of square.cpp (lines 16-23). -/
def squareFragmentShaderSource : String :=
  "\n    #version 330 core\n    out vec4 FragColor;                   // Output color of the pixel.\n\n    void main() \x7b\n        FragColor = vec4(1.0f, 0.5f, 0.2f, 1.0f);  // Setting the color to orange.\n    \x7d\n"

/-- The array `vertices` of square.cpp (lines 69-74), read as exact numbers. -/
def squareVertices (K : Type) [Field K] : List K :=
  [  0.5,  0.5,
     0.5, -0.5,
    -0.5, -0.5,
    -0.5,  0.5 ]

/-- The array `indices` of square.cpp (lines 77-80). -/
def squareIndices : List Nat :=
  [ 0, 1, 3,
    1, 2, 3 ]

section SquareProgram
variable {K : Type} [Field K]

/-- The body of the render loop of square.cpp (lines 112-125). -/
def squareFrame (window VAO shaderProgram : Nat) (w : World K) : World K :=
  let w := emit (.glClear [.GL_COLOR_BUFFER_BIT]) w
  let w := emit (.glUseProgram shaderProgram) w
  let w := emit (.glBindVertexArray VAO) w
  let w := emit (.glDrawElements .GL_TRIANGLES 6 .GL_UNSIGNED_INT 0) w
  let w := emit (.glfwSwapBuffers window) w
  emit .glfwPollEvents w

/-- The render loop of square.cpp (lines 111-126); `none` when the fuel runs out before
the window asks to close. -/
def squareLoop (env : Env K) (window VAO shaderProgram : Nat) :
    Nat → World K → Option (World K)
  | 0, _ => none
  | fuel + 1, w =>
    let (close, w) := glfwWindowShouldClose env window w
    if close = 0 then
      squareLoop env window VAO shaderProgram fuel (squareFrame window VAO shaderProgram w)
    else some w

/-- Lines 63-108 of square.cpp: context, GLEW, geometry upload, shader program.  Returns
the names `(VAO, VBO, EBO, shaderProgram)`. -/
def squareSetup (env : Env K) (window : Nat) (w : World K) :
    (Nat × Nat × Nat × Nat) × World K :=
  let w := emit (.glfwMakeContextCurrent window) w
  let w := emit .glewInit w
  let vertices := squareVertices K
  let indices := squareIndices
  let (VAO, w) := glGenVertexArrays env w
  let (VBO, w) := glGenBuffers env w
  let (EBO, w) := glGenBuffers env w
  let w := emit (.glBindVertexArray VAO) w
  let w := emit (.glBindBuffer .GL_ARRAY_BUFFER VBO) w
  let w := emit (.glBufferData .GL_ARRAY_BUFFER (sizeofFloat * vertices.length)
    (.floats vertices) .GL_STATIC_DRAW) w
  let w := emit (.glBindBuffer .GL_ELEMENT_ARRAY_BUFFER EBO) w
  let w := emit (.glBufferData .GL_ELEMENT_ARRAY_BUFFER (sizeofUInt * indices.length)
    (.uints indices) .GL_STATIC_DRAW) w
  let w := emit (.glVertexAttribPointer 0 2 .GL_FLOAT false (2 * sizeofFloat) 0) w
  let w := emit (.glEnableVertexAttribArray 0) w
  let w := emit (.glBindBuffer .GL_ARRAY_BUFFER 0) w
  let w := emit (.glBindVertexArray 0) w
  let (shaderProgram, w) :=
    createShaderProgram env squareVertexShaderSource squareFragmentShaderSource w
  ((VAO, VBO, EBO, shaderProgram), w)

/-- The function `main` of square.cpp (lines 50-137): exit status and final state. -/
def squareMain (env : Env K) (fuel : Nat) : Option (Int × World K) :=
  let w := World.init K
  let w := emit (.glfwInit env.initResult) w
  if env.initResult = 0 then some (-1, w)
  else
    let window := env.windowHandle
    let w := emit (.glfwCreateWindow 800 600 "2D Square" window) w
    if window = 0 then some (-1, emit .glfwTerminate w)
    else
      let ((VAO, VBO, EBO, shaderProgram), w) := squareSetup env window w
      match squareLoop env window VAO shaderProgram fuel w with
      | none => none
      | some w =>
        let w := emit (.glDeleteVertexArrays 1 [VAO]) w
        let w := emit (.glDeleteBuffers 1 [VBO]) w
        let w := emit (.glDeleteBuffers 1 [EBO]) w
        let w := emit (.glDeleteProgram shaderProgram) w
        let w := emit .glfwTerminate w
        some (0, w)

end SquareProgram

/-! ## The driver's live objects -/

/-- Kinds of driver objects. -/
inductive ObjKind where
  | shader
  | program
  | vertexArray
  | buffer
deriving DecidableEq, Repr

/-- A driver object: its kind and its name. -/
abbrev Obj := ObjKind × Nat

/-- Effect of one call on the live objects: a creating call adds the object it returns, a
deleting call removes one object of that kind and name, every other call leaves the set
as it is.  The set is kept as a list with multiplicity, so nothing is assumed about the
names the driver chooses. -/
def driverStep {K : Type} (live : List Obj) : Call K → List Obj
  | .glCreateShader _ h => (ObjKind.shader, h) :: live
  | .glCreateProgram h => (ObjKind.program, h) :: live
  | .glGenVertexArrays _ hs => hs.map (fun h => (ObjKind.vertexArray, h)) ++ live
  | .glGenBuffers _ hs => hs.map (fun h => (ObjKind.buffer, h)) ++ live
  | .glDeleteShader h => live.erase (ObjKind.shader, h)
  | .glDeleteProgram h => live.erase (ObjKind.program, h)
  | .glDeleteVertexArrays _ hs => hs.foldl (fun l h => l.erase (ObjKind.vertexArray, h)) live
  | .glDeleteBuffers _ hs => hs.foldl (fun l h => l.erase (ObjKind.buffer, h)) live
  | _ => live

/-- Live objects after the calls of `t`, starting from `live`. -/
def liveFrom {K : Type} (live : List Obj) (t : List (Call K)) : List Obj :=
  t.foldl driverStep live

/-- Live objects after a whole trace, starting with none. -/
def liveAfter {K : Type} (t : List (Call K)) : List Obj := liveFrom [] t

/-- A sample environment over the rationals: init and window creation succeed, the
window asks to close at the third check, the driver numbers its objects 1, 2, 3, ... -/
def sampleEnv : Env ℚ where
  initResult := 1
  windowHandle := 7
  shouldClose := fun k => if k < 2 then 0 else 1
  time := fun k => k
  handle := fun k => k + 1
  uniformLocation := fun _ name => name.length
  math := ⟨fun _ => 1, fun _ => 0, fun _ => 1, fun _ => 1, 3⟩

/-! ## Geometry of the vertex tables -/

/-- A point of the plane. -/
structure Vec2 (K : Type) where
  x : K
  y : K
deriving DecidableEq, Repr

section Geometry
variable {K : Type}

/-- Primitive assembly of `GL_TRIANGLES`: consecutive triples of the element sequence. -/
def triangles {α : Type} : List α → List (α × α × α)
  | a :: b :: c :: rest => (a, b, c) :: triangles rest
  | _ => []

/-- Vertex `i` of the cube as the attribute layout of cube.cpp line 143 reads it: three
floats per vertex, tightly packed from offset 0. -/
def cubeVertex (K : Type) [Field K] (i : Nat) : Vec3 K :=
  ⟨(cubeVertices K).getD (3 * i) 0, (cubeVertices K).getD (3 * i + 1) 0,
    (cubeVertices K).getD (3 * i + 2) 0⟩

/-- Vertex `i` of the square as the attribute layout of square.cpp line 100 reads it: two
floats per vertex, tightly packed from offset 0. -/
def squareVertex (K : Type) [Field K] (i : Nat) : Vec2 K :=
  ⟨(squareVertices K).getD (2 * i) 0, (squareVertices K).getD (2 * i + 1) 0⟩

/-- Coordinate number `axis` (0, 1, 2 for x, y, z) of a point. -/
def Vec3.coord (v : Vec3 K) : Nat → K
  | 0 => v.x
  | 1 => v.y
  | _ => v.z

/-- The point of the plane left when coordinate number `axis` is dropped. -/
def Vec3.dropAxis (v : Vec3 K) : Nat → Vec2 K
  | 0 => ⟨v.y, v.z⟩
  | 1 => ⟨v.x, v.z⟩
  | _ => ⟨v.x, v.y⟩

/-- The planes `coordinate axis = value` that contain every vertex of `vs`. -/
def sharedPlanes [DecidableEq K] (vs : List (Vec3 K)) : List (Nat × K) :=
  match vs with
  | [] => []
  | v :: rest =>
    ([0, 1, 2].filter (fun axis => rest.all (fun u => u.coord axis = v.coord axis))).map
      (fun axis => (axis, v.coord axis))

/-- The six vertices that the draw call of cube.cpp line 178 assembles into the two
triangles number `2 * g` and `2 * g + 1`. -/
def cubeFace (K : Type) [Field K] (g : Nat) : List (Vec3 K) :=
  (List.range 6).map (fun i => cubeVertex K (6 * g + i))

section Ordered
variable [LinearOrderedField K]

/-- Twice the signed area of the triangle `a b p`. -/
def edgeFn (a b p : Vec2 K) : K :=
  (b.x - a.x) * (p.y - a.y) - (b.y - a.y) * (p.x - a.x)

/-- The point `p` lies in the closed triangle `a b c`: it is on the same side of the
three edges. -/
def InTriangle (a b c p : Vec2 K) : Prop :=
  (0 ≤ edgeFn a b p ∧ 0 ≤ edgeFn b c p ∧ 0 ≤ edgeFn c a p) ∨
    (edgeFn a b p ≤ 0 ∧ edgeFn b c p ≤ 0 ∧ edgeFn c a p ≤ 0)

instance (a b c p : Vec2 K) : Decidable (InTriangle a b c p) := by
  unfold InTriangle
  infer_instance

/-- The point `p` lies on the closed segment from `a` to `b`. -/
def OnSegment (a b p : Vec2 K) : Prop :=
  edgeFn a b p = 0 ∧
    0 ≤ (p.x - a.x) * (b.x - a.x) + (p.y - a.y) * (b.y - a.y) ∧
    (p.x - a.x) * (b.x - a.x) + (p.y - a.y) * (b.y - a.y) ≤
      (b.x - a.x) * (b.x - a.x) + (b.y - a.y) * (b.y - a.y)

instance (a b p : Vec2 K) : Decidable (OnSegment a b p) := by
  unfold OnSegment
  infer_instance

/-- The point `p` lies in the closed square [-0.5, 0.5] x [-0.5, 0.5]. -/
def InSquare (p : Vec2 K) : Prop :=
  -0.5 ≤ p.x ∧ p.x ≤ 0.5 ∧ -0.5 ≤ p.y ∧ p.y ≤ 0.5

instance (p : Vec2 K) : Decidable (InSquare p) := by
  unfold InSquare
  infer_instance

/-- Area of the triangle `a b c`. -/
def triangleArea (a b c : Vec2 K) : K := |edgeFn a b c| / 2

/-- The triangles `a b c` and `c d a` split the square [-0.5, 0.5] x [-0.5, 0.5] along
its diagonal `a c`: the diagonal joins opposite corners, both triangles are
non-degenerate, their areas add up to 1, a point lies in the square exactly when it lies
in one of the triangles, and in both exactly when it lies on the diagonal. -/
def SplitsSquare (a b c d : Vec2 K) : Prop :=
  a.x ≠ c.x ∧ a.y ≠ c.y ∧ edgeFn a b c ≠ 0 ∧ edgeFn c d a ≠ 0 ∧
    triangleArea a b c + triangleArea c d a = 1 ∧
    (∀ p, InSquare p ↔ InTriangle a b c p ∨ InTriangle c d a p) ∧
    (∀ p, InTriangle a b c p ∧ InTriangle c d a p ↔ OnSegment a c p)

end Ordered

end Geometry


/-! ## Traces of the program fragments -/

section TraceLemmas
variable {K : Type}

/-- Calls of one `createShaderProgram` when the driver has handed out `a` names so far. -/
def shaderProgramCalls (env : Env K) (vs fs : String) (a : Nat) : List (Call K) :=
  [ .glCreateShader .GL_VERTEX_SHADER (env.handle a),
    .glShaderSource (env.handle a) 1 vs,
    .glCompileShader (env.handle a),
    .glCreateShader .GL_FRAGMENT_SHADER (env.handle (a + 1)),
    .glShaderSource (env.handle (a + 1)) 1 fs,
    .glCompileShader (env.handle (a + 1)),
    .glCreateProgram (env.handle (a + 2)),
    .glAttachShader (env.handle (a + 2)) (env.handle a),
    .glAttachShader (env.handle (a + 2)) (env.handle (a + 1)),
    .glLinkProgram (env.handle (a + 2)),
    .glDeleteShader (env.handle a),
    .glDeleteShader (env.handle (a + 1)) ]

theorem createShaderProgram_eq (env : Env K) (vs fs : String) (w : World K) :
    createShaderProgram env vs fs w =
      (env.handle (w.allocs + 2),
        ⟨w.trace ++ shaderProgramCalls env vs fs w.allocs, w.allocs + 3, w.checks, w.clock⟩) := by
  simp [createShaderProgram, shaderProgramCalls, glCreateShader, glCreateProgram, nextName,
    emit]

/-- The window asks to close at the check number `N` (counted from 0) and not before: the
loop body runs exactly `N` times. -/
def ClosesAt (env : Env K) (N : Nat) : Prop :=
  (∀ i, i < N → env.shouldClose i = 0) ∧ env.shouldClose N ≠ 0

section CubeTrace
variable [Field K]

/-- Calls of one pass through the cube loop body, when the driver has handed out `a`
names and the clock was read `t` times so far. -/
def cubeFrameCalls (env : Env K) (window VAO a t : Nat) : List (Call K) :=
  .glClear [.GL_COLOR_BUFFER_BIT, .GL_DEPTH_BUFFER_BIT] ::
    shaderProgramCalls env cubeVertexShaderSource cubeFragmentShaderSource a ++
  [ .glUseProgram (env.handle (a + 2)),
    .glfwGetTime (env.time t),
    .glGetUniformLocation (env.handle (a + 2)) "model"
      (env.uniformLocation (env.handle (a + 2)) "model"),
    .glGetUniformLocation (env.handle (a + 2)) "view"
      (env.uniformLocation (env.handle (a + 2)) "view"),
    .glGetUniformLocation (env.handle (a + 2)) "projection"
      (env.uniformLocation (env.handle (a + 2)) "projection"),
    .glUniformMatrix4fv (env.uniformLocation (env.handle (a + 2)) "model") 1 false
      (value_ptr (cubeModel env.math (env.time t))),
    .glUniformMatrix4fv (env.uniformLocation (env.handle (a + 2)) "view") 1 false
      (value_ptr (cubeView : Mat4 K)),
    .glUniformMatrix4fv (env.uniformLocation (env.handle (a + 2)) "projection") 1 false
      (value_ptr (cubeProjection env.math)),
    .glBindVertexArray VAO,
    .glDrawArrays .GL_TRIANGLES 0 36,
    .glfwSwapBuffers window,
    .glfwPollEvents,
    .glDeleteProgram (env.handle (a + 2)) ]

/-- Calls of `n` consecutive iterations of the cube loop: each is a close check answered
0 followed by the calls of the body. -/
def cubeIterations (env : Env K) (window VAO : Nat) : Nat → Nat → Nat → List (Call K)
  | 0, _, _ => []
  | n + 1, a, t =>
    (.glfwWindowShouldClose window 0 :: cubeFrameCalls env window VAO a t) ++
      cubeIterations env window VAO n (a + 3) (t + 1)

/-- Calls of lines 78-151 of cube.cpp when the driver has handed out `a` names so far. -/
def cubeSetupCalls (env : Env K) (window a : Nat) : List (Call K) :=
  [ .glfwMakeContextCurrent window,
    .glewInit,
    .glGenVertexArrays 1 [env.handle a],
    .glGenBuffers 1 [env.handle (a + 1)],
    .glBindVertexArray (env.handle a),
    .glBindBuffer .GL_ARRAY_BUFFER (env.handle (a + 1)),
    .glBufferData .GL_ARRAY_BUFFER 432 (.floats (cubeVertices K)) .GL_STATIC_DRAW,
    .glVertexAttribPointer 0 3 .GL_FLOAT false 12 0,
    .glEnableVertexAttribArray 0,
    .glBindBuffer .GL_ARRAY_BUFFER 0,
    .glBindVertexArray 0,
    .glEnable .GL_DEPTH_TEST ]

theorem cubeFrame_eq (env : Env K) (window VAO : Nat) (w : World K) :
    cubeFrame env window VAO w =
      ⟨w.trace ++ cubeFrameCalls env window VAO w.allocs w.clock,
        w.allocs + 3, w.checks, w.clock + 1⟩ := by
  simp [cubeFrame, cubeFrameCalls, createShaderProgram_eq, glfwGetTime,
    glGetUniformLocation, emit]

theorem cubeSetup_eq (env : Env K) (window : Nat) (w : World K) :
    cubeSetup env window w =
      ((env.handle w.allocs, env.handle (w.allocs + 1)),
        ⟨w.trace ++ cubeSetupCalls env window w.allocs, w.allocs + 2, w.checks, w.clock⟩) := by
  simp [cubeSetup, cubeSetupCalls, glGenVertexArrays, glGenBuffers, nextName, emit,
    sizeofFloat, cubeVertices]

theorem cubeLoop_eq (env : Env K) (window VAO : Nat) :
    ∀ (N fuel : Nat) (w : World K),
      (∀ i, i < N → env.shouldClose (w.checks + i) = 0) →
      env.shouldClose (w.checks + N) ≠ 0 → N < fuel →
      cubeLoop env window VAO fuel w =
        some ⟨w.trace ++ cubeIterations env window VAO N w.allocs w.clock ++
            [.glfwWindowShouldClose window (env.shouldClose (w.checks + N))],
          w.allocs + 3 * N, w.checks + N + 1, w.clock + N⟩ := by
  intro N
  induction N with
  | zero =>
    intro fuel w _ hN hf
    obtain ⟨f, rfl⟩ : ∃ f, fuel = f + 1 := ⟨fuel - 1, by omega⟩
    simp only [Nat.add_zero] at hN
    simp [cubeLoop, glfwWindowShouldClose, emit, hN, cubeIterations]
  | succ n ih =>
    intro fuel w h0 hN hf
    obtain ⟨f, rfl⟩ : ∃ f, fuel = f + 1 := ⟨fuel - 1, by omega⟩
    have hc : env.shouldClose w.checks = 0 := by simpa using h0 0 (Nat.succ_pos n)
    have step := ih f
      (cubeFrame env window VAO
        (emit (.glfwWindowShouldClose window 0) { w with checks := w.checks + 1 }))
      (by
        intro i hi
        have := h0 (i + 1) (by omega)
        simpa [cubeFrame_eq, emit, Nat.add_assoc, Nat.add_comm 1 i] using this)
      (by
        simpa [cubeFrame_eq, emit, Nat.add_assoc, Nat.add_comm 1 n] using hN)
      (by omega)
    simp only [cubeLoop, glfwWindowShouldClose, hc, if_true]
    rw [step]
    simp [cubeFrame_eq, emit, cubeIterations, Nat.add_assoc, Nat.add_comm 1 n,
      Nat.mul_succ, Nat.add_comm 3 (3 * n)]

/-- Calls of a whole run of the cube program whose loop body runs `N` times. -/
def cubeRunCalls (env : Env K) (N : Nat) : List (Call K) :=
  [.glfwInit env.initResult, .glfwCreateWindow 800 600 "3D Cube" env.windowHandle] ++
    cubeSetupCalls env env.windowHandle 0 ++
    cubeIterations env env.windowHandle (env.handle 0) N 2 0 ++
    [.glfwWindowShouldClose env.windowHandle (env.shouldClose N)] ++
    [.glDeleteVertexArrays 1 [env.handle 0], .glDeleteBuffers 1 [env.handle 1],
      .glfwTerminate]

theorem cubeMain_eq (env : Env K) (N fuel : Nat) (hinit : env.initResult ≠ 0)
    (hwin : env.windowHandle ≠ 0) (hclose : ClosesAt env N) (hfuel : N < fuel) :
    cubeMain env fuel = some (0, ⟨cubeRunCalls env N, 2 + 3 * N, N + 1, N⟩) := by
  have hloop := cubeLoop_eq env env.windowHandle (env.handle 0) N fuel
    ⟨[.glfwInit env.initResult, .glfwCreateWindow 800 600 "3D Cube" env.windowHandle] ++
      cubeSetupCalls env env.windowHandle 0, 2, 0, 0⟩
    (by simpa using hclose.1) (by simpa using hclose.2) hfuel
  simp [cubeMain, hinit, hwin, cubeSetup_eq, emit, World.init] at hloop ⊢
  rw [hloop]
  simp [cubeRunCalls]

theorem cubeMain_status (env : Env K) (fuel : Nat) (r : Int) (w : World K)
    (h : cubeMain env fuel = some (r, w)) :
    r = if env.initResult = 0 ∨ env.windowHandle = 0 then -1 else 0 := by
  unfold cubeMain at h
  by_cases hinit : env.initResult = 0
  · simp only [hinit, if_true, Option.some.injEq, Prod.mk.injEq] at h
    obtain ⟨rfl, _⟩ := h
    simp [hinit]
  · by_cases hwin : env.windowHandle = 0
    · simp only [hinit, hwin, if_true, if_false, Option.some.injEq, Prod.mk.injEq] at h
      obtain ⟨rfl, _⟩ := h
      simp [hwin]
    · simp only [hinit, hwin, if_false] at h
      split at h
      · cases h
      · simp only [Option.some.injEq, Prod.mk.injEq] at h
        obtain ⟨rfl, _⟩ := h
        simp [hinit, hwin]

end CubeTrace

section SquareTrace

/-- Calls of one pass through the square loop body. -/
def squareFrameCalls (window VAO shaderProgram : Nat) : List (Call K) :=
  [ .glClear [.GL_COLOR_BUFFER_BIT],
    .glUseProgram shaderProgram,
    .glBindVertexArray VAO,
    .glDrawElements .GL_TRIANGLES 6 .GL_UNSIGNED_INT 0,
    .glfwSwapBuffers window,
    .glfwPollEvents ]

/-- Calls of `n` consecutive iterations of the square loop. -/
def squareIterations (window VAO shaderProgram : Nat) : Nat → List (Call K)
  | 0 => []
  | n + 1 =>
    (.glfwWindowShouldClose window 0 :: squareFrameCalls window VAO shaderProgram) ++
      squareIterations window VAO shaderProgram n

theorem squareFrame_eq (window VAO shaderProgram : Nat) (w : World K) :
    squareFrame window VAO shaderProgram w =
      ⟨w.trace ++ squareFrameCalls window VAO shaderProgram,
        w.allocs, w.checks, w.clock⟩ := by
  simp [squareFrame, squareFrameCalls, emit]

theorem squareLoop_eq (env : Env K) (window VAO shaderProgram : Nat) :
    ∀ (N fuel : Nat) (w : World K),
      (∀ i, i < N → env.shouldClose (w.checks + i) = 0) →
      env.shouldClose (w.checks + N) ≠ 0 → N < fuel →
      squareLoop env window VAO shaderProgram fuel w =
        some ⟨w.trace ++ squareIterations window VAO shaderProgram N ++
            [.glfwWindowShouldClose window (env.shouldClose (w.checks + N))],
          w.allocs, w.checks + N + 1, w.clock⟩ := by
  intro N
  induction N with
  | zero =>
    intro fuel w _ hN hf
    obtain ⟨f, rfl⟩ : ∃ f, fuel = f + 1 := ⟨fuel - 1, by omega⟩
    simp only [Nat.add_zero] at hN
    simp [squareLoop, glfwWindowShouldClose, emit, hN, squareIterations]
  | succ n ih =>
    intro fuel w h0 hN hf
    obtain ⟨f, rfl⟩ : ∃ f, fuel = f + 1 := ⟨fuel - 1, by omega⟩
    have hc : env.shouldClose w.checks = 0 := by simpa using h0 0 (Nat.succ_pos n)
    have step := ih f
      (squareFrame window VAO shaderProgram
        (emit (.glfwWindowShouldClose window 0) { w with checks := w.checks + 1 }))
      (by
        intro i hi
        have := h0 (i + 1) (by omega)
        simpa [squareFrame_eq, emit, Nat.add_assoc, Nat.add_comm 1 i] using this)
      (by
        simpa [squareFrame_eq, emit, Nat.add_assoc, Nat.add_comm 1 n] using hN)
      (by omega)
    simp only [squareLoop, glfwWindowShouldClose, hc, if_true]
    rw [step]
    simp [squareFrame_eq, emit, squareIterations, Nat.add_assoc, Nat.add_comm 1 n]

variable [Field K]

/-- Calls of lines 63-108 of square.cpp when the driver has handed out `a` names. -/
def squareSetupCalls (env : Env K) (window a : Nat) : List (Call K) :=
  [ .glfwMakeContextCurrent window,
    .glewInit,
    .glGenVertexArrays 1 [env.handle a],
    .glGenBuffers 1 [env.handle (a + 1)],
    .glGenBuffers 1 [env.handle (a + 2)],
    .glBindVertexArray (env.handle a),
    .glBindBuffer .GL_ARRAY_BUFFER (env.handle (a + 1)),
    .glBufferData .GL_ARRAY_BUFFER 32 (.floats (squareVertices K)) .GL_STATIC_DRAW,
    .glBindBuffer .GL_ELEMENT_ARRAY_BUFFER (env.handle (a + 2)),
    .glBufferData .GL_ELEMENT_ARRAY_BUFFER 24 (.uints squareIndices) .GL_STATIC_DRAW,
    .glVertexAttribPointer 0 2 .GL_FLOAT false 8 0,
    .glEnableVertexAttribArray 0,
    .glBindBuffer .GL_ARRAY_BUFFER 0,
    .glBindVertexArray 0 ] ++
  shaderProgramCalls env squareVertexShaderSource squareFragmentShaderSource (a + 3)

theorem squareSetup_eq (env : Env K) (window : Nat) (w : World K) :
    squareSetup env window w =
      ((env.handle w.allocs, env.handle (w.allocs + 1), env.handle (w.allocs + 2),
          env.handle (w.allocs + 5)),
        ⟨w.trace ++ squareSetupCalls env window w.allocs, w.allocs + 6, w.checks,
          w.clock⟩) := by
  simp [squareSetup, squareSetupCalls, glGenVertexArrays, glGenBuffers, nextName, emit,
    sizeofFloat, sizeofUInt, squareVertices, squareIndices, createShaderProgram_eq,
    Nat.add_assoc]

/-- Calls of a whole run of the square program whose loop body runs `N` times. -/
def squareRunCalls (env : Env K) (N : Nat) : List (Call K) :=
  [.glfwInit env.initResult, .glfwCreateWindow 800 600 "2D Square" env.windowHandle] ++
    squareSetupCalls env env.windowHandle 0 ++
    squareIterations env.windowHandle (env.handle 0) (env.handle 5) N ++
    [.glfwWindowShouldClose env.windowHandle (env.shouldClose N)] ++
    [.glDeleteVertexArrays 1 [env.handle 0], .glDeleteBuffers 1 [env.handle 1],
      .glDeleteBuffers 1 [env.handle 2], .glDeleteProgram (env.handle 5), .glfwTerminate]

theorem squareMain_eq (env : Env K) (N fuel : Nat) (hinit : env.initResult ≠ 0)
    (hwin : env.windowHandle ≠ 0) (hclose : ClosesAt env N) (hfuel : N < fuel) :
    squareMain env fuel = some (0, ⟨squareRunCalls env N, 6, N + 1, 0⟩) := by
  have hloop := squareLoop_eq env env.windowHandle (env.handle 0) (env.handle 5) N fuel
    ⟨[.glfwInit env.initResult, .glfwCreateWindow 800 600 "2D Square" env.windowHandle] ++
      squareSetupCalls env env.windowHandle 0, 6, 0, 0⟩
    (by simpa using hclose.1) (by simpa using hclose.2) hfuel
  simp [squareMain, hinit, hwin, squareSetup_eq, emit, World.init] at hloop ⊢
  rw [hloop]
  simp [squareRunCalls]

theorem squareMain_status (env : Env K) (fuel : Nat) (r : Int) (w : World K)
    (h : squareMain env fuel = some (r, w)) :
    r = if env.initResult = 0 ∨ env.windowHandle = 0 then -1 else 0 := by
  unfold squareMain at h
  by_cases hinit : env.initResult = 0
  · simp only [hinit, if_true, Option.some.injEq, Prod.mk.injEq] at h
    obtain ⟨rfl, _⟩ := h
    simp [hinit]
  · by_cases hwin : env.windowHandle = 0
    · simp only [hinit, hwin, if_true, if_false, Option.some.injEq, Prod.mk.injEq] at h
      obtain ⟨rfl, _⟩ := h
      simp [hwin]
    · simp only [hinit, hwin, if_false] at h
      split at h
      · cases h
      · simp only [Option.some.injEq, Prod.mk.injEq] at h
        obtain ⟨rfl, _⟩ := h
        simp [hinit, hwin]

end SquareTrace

end TraceLemmas

/-! ## Live objects along a trace -/

section LiveLemmas
variable {K : Type}

/-- Number of live program objects. -/
def liveProgramCount (live : List Obj) : Nat :=
  live.countP (fun o => o.1 = ObjKind.program)

/-- The program name a call creates, if it creates one. -/
def createdProgram : Call K → Option Nat
  | .glCreateProgram h => some h
  | _ => none

/-- The program name a call deletes, if it deletes one. -/
def deletedProgram : Call K → Option Nat
  | .glDeleteProgram h => some h
  | _ => none

/-- Close checks, program creations and program deletions. -/
def isChurnEvent : Call K → Bool
  | .glfwWindowShouldClose _ _ => true
  | .glCreateProgram _ => true
  | .glDeleteProgram _ => true
  | _ => false

/-- Close checks. -/
def isCloseCheck : Call K → Bool
  | .glfwWindowShouldClose _ _ => true
  | _ => false

/-- Along the calls of `t`, started with `live`: never more than one program is live, and
none is live whenever a close check is made. -/
def ChurnOk : List Obj → List (Call K) → Prop
  | live, [] => liveProgramCount live ≤ 1
  | live, c :: t =>
    liveProgramCount live ≤ 1 ∧ (isCloseCheck c = true → liveProgramCount live = 0) ∧
      ChurnOk (driverStep live c) t

theorem liveFrom_append (live : List Obj) (a b : List (Call K)) :
    liveFrom live (a ++ b) = liveFrom (liveFrom live a) b := by
  simp [liveFrom, List.foldl_append]

theorem liveFrom_cons (live : List Obj) (c : Call K) (t : List (Call K)) :
    liveFrom live (c :: t) = liveFrom (driverStep live c) t := rfl

theorem liveFrom_nil (live : List Obj) : liveFrom live ([] : List (Call K)) = live := rfl

theorem ChurnOk.head_le {live : List Obj} {t : List (Call K)} (h : ChurnOk live t) :
    liveProgramCount live ≤ 1 := by
  cases t with
  | nil => exact h
  | cons c t => exact h.1

theorem ChurnOk.append {live : List Obj} {a b : List (Call K)} (ha : ChurnOk live a)
    (hb : ChurnOk (liveFrom live a) b) : ChurnOk live (a ++ b) := by
  induction a generalizing live with
  | nil => simpa [liveFrom_nil] using hb
  | cons c a ih =>
    exact ⟨ha.1, ha.2.1, ih ha.2.2 (by simpa [liveFrom_cons] using hb)⟩

theorem ChurnOk.take {live : List Obj} {t : List (Call K)} (h : ChurnOk live t) (k : Nat) :
    liveProgramCount (liveFrom live (t.take k)) ≤ 1 ∧
      (∀ c, t[k]? = some c → isCloseCheck c = true →
        liveProgramCount (liveFrom live (t.take k)) = 0) := by
  induction t generalizing live k with
  | nil => simpa [liveFrom_nil] using h
  | cons c t ih =>
    cases k with
    | zero =>
      refine ⟨by simpa [liveFrom_nil] using h.1, ?_⟩
      intro d hd hc
      simp at hd
      subst hd
      simpa [liveFrom_nil] using h.2.1 hc
    | succ k =>
      simpa [List.take_succ_cons, liveFrom_cons] using ih h.2.2 k

theorem liveProgramCount_cons (o : Obj) (live : List Obj) :
    liveProgramCount (o :: live) =
      liveProgramCount live + if o.1 = ObjKind.program then 1 else 0 := by
  simp [liveProgramCount, List.countP_cons]

theorem liveProgramCount_erase_shader (h : Nat) (live : List Obj) :
    liveProgramCount (live.erase (ObjKind.shader, h)) = liveProgramCount live := by
  induction live with
  | nil => rfl
  | cons o live ih =>
    by_cases ho : o = (ObjKind.shader, h)
    · subst ho
      simp [liveProgramCount_cons]
    · rw [List.erase_cons_tail (by simpa using ho)]
      simp [liveProgramCount_cons, ih]

theorem liveFrom_shaderProgramCalls (env : Env K) (vs fs : String) (a : Nat)
    (live : List Obj) :
    liveFrom live (shaderProgramCalls env vs fs a) =
      (ObjKind.program, env.handle (a + 2)) :: live := by
  by_cases h : env.handle (a + 1) = env.handle a
  · simp [liveFrom, shaderProgramCalls, driverStep, List.erase_cons, h]
  · simp [liveFrom, shaderProgramCalls, driverStep, List.erase_cons, h]

theorem churnOk_shaderProgramCalls (env : Env K) (vs fs : String) (a : Nat)
    (live : List Obj) (h0 : liveProgramCount live = 0) :
    ChurnOk live (shaderProgramCalls env vs fs a) := by
  by_cases h : env.handle (a + 1) = env.handle a
  · simp [ChurnOk, shaderProgramCalls, driverStep, List.erase_cons, h,
      liveProgramCount_cons, isCloseCheck, h0]
  · simp [ChurnOk, shaderProgramCalls, driverStep, List.erase_cons, h,
      liveProgramCount_cons, isCloseCheck, h0]

/-- Creation, upload and deletion of driver objects, close checks and `glfwTerminate`: the
calls that delimit object lifetimes and loop iterations. -/
def isLifetimeEvent : Call K → Bool
  | .glCreateShader _ _ => true
  | .glCreateProgram _ => true
  | .glGenVertexArrays _ _ => true
  | .glGenBuffers _ _ => true
  | .glBufferData _ _ _ _ => true
  | .glDeleteShader _ => true
  | .glDeleteProgram _ => true
  | .glDeleteVertexArrays _ _ => true
  | .glDeleteBuffers _ _ => true
  | .glfwWindowShouldClose _ _ => true
  | .glfwTerminate => true
  | _ => false

theorem filter_flatMap {α β : Type} (p : β → Bool) (f : α → List β) (l : List α) :
    (l.flatMap f).filter p = l.flatMap (fun a => (f a).filter p) := by
  induction l with
  | nil => rfl
  | cons a l ih => simp [List.flatMap_cons, List.filter_append, ih]

theorem filterMap_flatMap {α β γ : Type} (g : β → Option γ) (f : α → List β)
    (l : List α) :
    (l.flatMap f).filterMap g = l.flatMap (fun a => (f a).filterMap g) := by
  induction l with
  | nil => rfl
  | cons a l ih => simp [List.flatMap_cons, List.filterMap_append, ih]

theorem flatMap_singleton_eq_map {α β : Type} (f : α → β) (l : List α) :
    l.flatMap (fun a => [f a]) = l.map f := by
  induction l with
  | nil => rfl
  | cons a l ih => simp [List.flatMap_cons, ih]

section CubeLive
variable [Field K]

theorem cubeIterations_eq_flatMap (env : Env K) (window VAO : Nat) :
    ∀ n a t, cubeIterations env window VAO n a t =
      (List.range n).flatMap (fun i =>
        .glfwWindowShouldClose window 0 ::
          cubeFrameCalls env window VAO (a + 3 * i) (t + i)) := by
  intro n
  induction n with
  | zero => intro a t; rfl
  | succ n ih =>
    intro a t
    have hf : (fun i => (Call.glfwWindowShouldClose window 0 : Call K) ::
          cubeFrameCalls env window VAO (a + 3 + 3 * i) (t + 1 + i)) =
        (fun i => (Call.glfwWindowShouldClose window 0 : Call K) ::
          cubeFrameCalls env window VAO (a + 3 * (i + 1)) (t + (i + 1))) := by
      funext i
      have h1 : a + 3 + 3 * i = a + 3 * (i + 1) := by omega
      have h2 : t + 1 + i = t + (i + 1) := by omega
      rw [h1, h2]
    rw [cubeIterations, ih, List.range_succ_eq_map, List.flatMap_cons, List.flatMap_map, hf]
    rfl

theorem liveFrom_cubeIteration (env : Env K) (window VAO a t : Nat) (live : List Obj) :
    liveFrom live (.glfwWindowShouldClose window 0 :: cubeFrameCalls env window VAO a t) =
      live := by
  simp [cubeFrameCalls, liveFrom_cons, liveFrom_append, liveFrom_shaderProgramCalls,
    driverStep, liveFrom_nil]

theorem churnOk_cubeIteration (env : Env K) (window VAO a t : Nat) (live : List Obj)
    (h0 : liveProgramCount live = 0) :
    ChurnOk live (.glfwWindowShouldClose window 0 :: cubeFrameCalls env window VAO a t) := by
  have h1 : ChurnOk live
      ([.glfwWindowShouldClose window 0,
        .glClear [.GL_COLOR_BUFFER_BIT, .GL_DEPTH_BUFFER_BIT]] : List (Call K)) := by
    simp [ChurnOk, driverStep, h0]
  have h2 := churnOk_shaderProgramCalls env cubeVertexShaderSource
    cubeFragmentShaderSource a live h0
  have h12 := ChurnOk.append h1 (by simpa [liveFrom, driverStep] using h2)
  have h123 := ChurnOk.append h12
    (b := List.drop 13 (cubeFrameCalls env window VAO a t))
    (by
      simp [cubeFrameCalls, shaderProgramCalls, liveFrom, driverStep, List.erase_cons,
        ChurnOk, liveProgramCount_cons, isCloseCheck, h0]
      by_cases h : env.handle (a + 1) = env.handle a <;>
        simp [h, liveProgramCount_cons, h0])
  simpa [cubeFrameCalls, shaderProgramCalls] using h123

theorem liveFrom_cubeIterations (env : Env K) (window VAO : Nat) :
    ∀ n a t live, liveFrom live (cubeIterations env window VAO n a t) = live := by
  intro n
  induction n with
  | zero => intro a t live; rfl
  | succ n ih =>
    intro a t live
    rw [cubeIterations, liveFrom_append, liveFrom_cubeIteration, ih]

theorem churnOk_cubeIterations (env : Env K) (window VAO : Nat) :
    ∀ n a t live, liveProgramCount live = 0 →
      ChurnOk live (cubeIterations env window VAO n a t) := by
  intro n
  induction n with
  | zero => intro a t live h0; simp [cubeIterations, ChurnOk, h0]
  | succ n ih =>
    intro a t live h0
    rw [cubeIterations]
    exact ChurnOk.append (churnOk_cubeIteration env window VAO a t live h0)
      (by rw [liveFrom_cubeIteration]; exact ih _ _ live h0)

theorem liveFrom_cubeStart (env : Env K) :
    liveFrom []
        (([.glfwInit env.initResult, .glfwCreateWindow 800 600 "3D Cube" env.windowHandle] :
            List (Call K)) ++ cubeSetupCalls env env.windowHandle 0) =
      [(ObjKind.buffer, env.handle 1), (ObjKind.vertexArray, env.handle 0)] := by
  simp [cubeSetupCalls, liveFrom, driverStep]

theorem churnOk_cubeRun (env : Env K) (N : Nat) : ChurnOk [] (cubeRunCalls env N) := by
  unfold cubeRunCalls
  refine ChurnOk.append (ChurnOk.append (ChurnOk.append (ChurnOk.append ?_ ?_) ?_) ?_) ?_
  · simp [ChurnOk, driverStep, liveProgramCount, isCloseCheck]
  · simp [cubeSetupCalls, ChurnOk, driverStep, liveFrom, liveProgramCount, isCloseCheck]
  · rw [liveFrom_cubeStart]
    exact churnOk_cubeIterations env _ _ N 2 0 _ (by simp [liveProgramCount])
  · rw [liveFrom_append, liveFrom_cubeStart, liveFrom_cubeIterations]
    simp [ChurnOk, driverStep, liveProgramCount]
  · rw [liveFrom_append, liveFrom_append, liveFrom_cubeStart, liveFrom_cubeIterations]
    simp [ChurnOk, driverStep, liveFrom, liveProgramCount, isCloseCheck, List.erase_cons]

theorem liveAfter_cubeRun (env : Env K) (N : Nat) : liveAfter (cubeRunCalls env N) = [] := by
  unfold cubeRunCalls liveAfter
  rw [liveFrom_append, liveFrom_append, liveFrom_append, liveFrom_cubeStart,
    liveFrom_cubeIterations]
  simp [liveFrom, driverStep, List.erase_cons]

end CubeLive

section SquareLive

theorem squareIterations_eq_flatMap (window VAO shaderProgram : Nat) :
    ∀ n, (squareIterations window VAO shaderProgram n : List (Call K)) =
      (List.range n).flatMap (fun _ =>
        .glfwWindowShouldClose window 0 :: squareFrameCalls window VAO shaderProgram) := by
  intro n
  induction n with
  | zero => rfl
  | succ n ih =>
    rw [squareIterations, ih, List.range_succ_eq_map, List.flatMap_cons, List.flatMap_map]

theorem liveFrom_squareIterations (window VAO shaderProgram : Nat) :
    ∀ n live, liveFrom live
      (squareIterations window VAO shaderProgram n : List (Call K)) = live := by
  intro n
  induction n with
  | zero => intro live; rfl
  | succ n ih =>
    intro live
    rw [squareIterations, liveFrom_append, ih]
    simp [squareFrameCalls, liveFrom, driverStep]

variable [Field K]

theorem liveFrom_squareStart (env : Env K) :
    liveFrom []
        (([.glfwInit env.initResult,
            .glfwCreateWindow 800 600 "2D Square" env.windowHandle] : List (Call K)) ++
          squareSetupCalls env env.windowHandle 0) =
      [(ObjKind.program, env.handle 5), (ObjKind.buffer, env.handle 2),
        (ObjKind.buffer, env.handle 1), (ObjKind.vertexArray, env.handle 0)] := by
  unfold squareSetupCalls
  rw [← List.append_assoc, liveFrom_append, liveFrom_shaderProgramCalls]
  simp [liveFrom, driverStep]

theorem liveAfter_squareRun (env : Env K) (N : Nat) :
    liveAfter (squareRunCalls env N) = [] := by
  unfold squareRunCalls liveAfter
  rw [liveFrom_append, liveFrom_append, liveFrom_append, liveFrom_squareStart,
    liveFrom_squareIterations]
  by_cases h : env.handle 2 = env.handle 1 <;>
    simp [liveFrom, driverStep, List.erase_cons, h]

end SquareLive

end LiveLemmas

/-! ## Claims about the call traces -/

section TraceClaims
variable {K : Type}

/-- C6. `createShaderProgram` (the same body in cube.cpp and square.cpp, for any pair of
shader texts) returns for every state, and from every state it issues exactly these
twelve calls: create the vertex stage, source, compile; create the fragment stage,
source, compile; create the program; attach both stages; link once; delete the two
stages.  No status query and no program deletion is among them, the value returned is the
name of the program, and the live objects after the call are those before it plus that
one program. -/
theorem createShaderProgram_effect (env : Env K) (vs fs : String) (w : World K) :
    (createShaderProgram env vs fs w).2.trace =
        w.trace ++
          [ .glCreateShader .GL_VERTEX_SHADER (env.handle w.allocs),
            .glShaderSource (env.handle w.allocs) 1 vs,
            .glCompileShader (env.handle w.allocs),
            .glCreateShader .GL_FRAGMENT_SHADER (env.handle (w.allocs + 1)),
            .glShaderSource (env.handle (w.allocs + 1)) 1 fs,
            .glCompileShader (env.handle (w.allocs + 1)),
            .glCreateProgram (env.handle (w.allocs + 2)),
            .glAttachShader (env.handle (w.allocs + 2)) (env.handle w.allocs),
            .glAttachShader (env.handle (w.allocs + 2)) (env.handle (w.allocs + 1)),
            .glLinkProgram (env.handle (w.allocs + 2)),
            .glDeleteShader (env.handle w.allocs),
            .glDeleteShader (env.handle (w.allocs + 1)) ] ∧
      (createShaderProgram env vs fs w).1 = env.handle (w.allocs + 2) ∧
      liveAfter (createShaderProgram env vs fs w).2.trace =
        (ObjKind.program, (createShaderProgram env vs fs w).1) :: liveAfter w.trace := by
  refine ⟨?_, ?_, ?_⟩
  · simp [createShaderProgram_eq, shaderProgramCalls]
  · simp [createShaderProgram_eq]
  · simp [createShaderProgram_eq, liveAfter, liveFrom_append, liveFrom_shaderProgramCalls]

/-- C8. Startup error handling of both programs.  If `glfwInit` answers 0, `main`
returns -1 and `glfwInit` is the only call made.  If it succeeds and `glfwCreateWindow`
answers NULL, `main` returns -1 and the only further calls are that window creation and
`glfwTerminate`.  In both cases this holds whatever the fuel, so the loop is not entered,
and no driver object is created.  If both succeed and the window asks to close at some
check, `main` returns 0.  Whenever `main` returns, the status is nonzero exactly when
initialisation or window creation failed. -/
theorem startup_error_handling [Field K] (env : Env K) :
    (env.initResult = 0 → ∀ fuel,
      cubeMain env fuel = some (-1, ⟨[.glfwInit 0], 0, 0, 0⟩) ∧
      squareMain env fuel = some (-1, ⟨[.glfwInit 0], 0, 0, 0⟩)) ∧
    (env.initResult ≠ 0 → env.windowHandle = 0 → ∀ fuel,
      cubeMain env fuel = some (-1,
        ⟨[.glfwInit env.initResult, .glfwCreateWindow 800 600 "3D Cube" 0, .glfwTerminate],
          0, 0, 0⟩) ∧
      squareMain env fuel = some (-1,
        ⟨[.glfwInit env.initResult, .glfwCreateWindow 800 600 "2D Square" 0,
          .glfwTerminate], 0, 0, 0⟩)) ∧
    (env.initResult ≠ 0 → env.windowHandle ≠ 0 → ∀ N fuel, ClosesAt env N → N < fuel →
      (∃ w, cubeMain env fuel = some (0, w)) ∧ (∃ w, squareMain env fuel = some (0, w))) ∧
    (∀ fuel r w, cubeMain env fuel = some (r, w) →
      (r ≠ 0 ↔ env.initResult = 0 ∨ env.windowHandle = 0)) ∧
    (∀ fuel r w, squareMain env fuel = some (r, w) →
      (r ≠ 0 ↔ env.initResult = 0 ∨ env.windowHandle = 0)) := by
  refine ⟨?_, ?_, ?_, ?_, ?_⟩
  · intro h fuel
    simp [cubeMain, squareMain, h, emit, World.init]
  · intro h hw fuel
    simp [cubeMain, squareMain, h, hw, emit, World.init]
  · intro h hw N fuel hc hf
    exact ⟨⟨_, cubeMain_eq env N fuel h hw hc hf⟩, ⟨_, squareMain_eq env N fuel h hw hc hf⟩⟩
  · intro fuel r w h
    rw [cubeMain_status env fuel r w h]
    by_cases hf : env.initResult = 0 ∨ env.windowHandle = 0 <;> simp [hf]
  · intro fuel r w h
    rw [squareMain_status env fuel r w h]
    by_cases hf : env.initResult = 0 ∨ env.windowHandle = 0 <;> simp [hf]

/-- Witness for C8: an environment in which `glfwInit` fails. -/
theorem startup_error_handling_witness :
    cubeMain { sampleEnv with initResult := 0 } 5 = some (-1, ⟨[.glfwInit 0], 0, 0, 0⟩) :=
  ((startup_error_handling { sampleEnv with initResult := 0 }).1 rfl 5).1

/-- C2. Cube program, a run whose loop body executes exactly `N` times (`N` may be 0).
The run returns, and in its trace: there are exactly `N` program creations and `N`
program deletions; the i-th deletion names the program the i-th creation returned; the
close checks, creations and deletions alternate as check, create, delete in every
iteration, so each creation precedes its deletion inside one iteration; after every
initial segment of the trace at most one program is live, none is live whenever a close
check is made (between iterations and at loop exit), and none is live at the end. -/
theorem cube_program_churn [Field K] (env : Env K) (N fuel : Nat)
    (hinit : env.initResult ≠ 0) (hwin : env.windowHandle ≠ 0) (hclose : ClosesAt env N)
    (hfuel : N < fuel) :
    ∃ w, cubeMain env fuel = some (0, w) ∧
      (w.trace.filterMap createdProgram).length = N ∧
      (w.trace.filterMap deletedProgram).length = N ∧
      w.trace.filterMap createdProgram =
        (List.range N).map (fun i => env.handle (2 + 3 * i + 2)) ∧
      w.trace.filterMap deletedProgram = w.trace.filterMap createdProgram ∧
      w.trace.filter isChurnEvent =
        (List.range N).flatMap (fun i =>
          [ .glfwWindowShouldClose env.windowHandle 0,
            .glCreateProgram (env.handle (2 + 3 * i + 2)),
            .glDeleteProgram (env.handle (2 + 3 * i + 2)) ]) ++
        [.glfwWindowShouldClose env.windowHandle (env.shouldClose N)] ∧
      (∀ k, liveProgramCount (liveAfter (w.trace.take k)) ≤ 1) ∧
      (∀ k c, w.trace[k]? = some c → isCloseCheck c = true →
        liveProgramCount (liveAfter (w.trace.take k)) = 0) ∧
      liveProgramCount (liveAfter w.trace) = 0 := by
  refine ⟨_, cubeMain_eq env N fuel hinit hwin hclose hfuel, ?_⟩
  have hc : (cubeRunCalls env N).filterMap createdProgram =
      (List.range N).map (fun i => env.handle (2 + 3 * i + 2)) := by
    simp [cubeRunCalls, cubeSetupCalls, cubeIterations_eq_flatMap, filterMap_flatMap,
      cubeFrameCalls, shaderProgramCalls, createdProgram, List.filterMap_append,
      List.filterMap_cons, flatMap_singleton_eq_map]
  have hd : (cubeRunCalls env N).filterMap deletedProgram =
      (List.range N).map (fun i => env.handle (2 + 3 * i + 2)) := by
    simp [cubeRunCalls, cubeSetupCalls, cubeIterations_eq_flatMap, filterMap_flatMap,
      cubeFrameCalls, shaderProgramCalls, deletedProgram, List.filterMap_append,
      List.filterMap_cons, flatMap_singleton_eq_map]
  have hok := churnOk_cubeRun env N
  refine ⟨by simp [hc], by simp [hd], hc, by rw [hc, hd], ?_, ?_, ?_, ?_⟩
  · simp [cubeRunCalls, cubeSetupCalls, cubeIterations_eq_flatMap, filter_flatMap,
      cubeFrameCalls, shaderProgramCalls, isChurnEvent, List.filter_append,
      List.filter_cons]
  · intro k
    exact (hok.take k).1
  · intro k c hk hcc
    exact (hok.take k).2 c hk hcc
  · simp [liveAfter_cubeRun, liveProgramCount]

/-- The sample environment closes at its third check, after two iterations. -/
theorem sampleEnv_closesAt : ClosesAt sampleEnv 2 := by
  constructor
  · intro i hi
    simp [sampleEnv, hi]
  · simp [sampleEnv]

/-- C1. Cube loop, every iteration of every run.
(a) In any state in which the close check answers 0 the loop runs its body once and
continues from the resulting state, and the calls of that iteration are exactly, in this
order: the close check; clear of colour and depth; the twelve calls of
`createShaderProgram`, which return the program `p`; activate `p`; read the clock and
look up "model", "view", "projection" on `p`; upload the three matrices to those
locations; bind the VAO; draw 36 vertices of a triangle list from 0; swap buffers; poll
events; delete `p`.
(b) From any state, if the next `N` close checks answer 0 and the one after does not, the
loop returns with enough fuel and has issued exactly `N` such iterations, one after the
other, followed by the closing check and nothing else.
(c) A run of `main` in which the window asks to close at check `N` returns 0, and its
trace is the start-up and geometry upload, then exactly these `N` iterations (with the
VAO generated at start-up), then the closing check and the clean-up. -/
theorem cube_iteration_calls [Field K] (env : Env K) :
    (∀ (window VAO fuel : Nat) (w : World K), env.shouldClose w.checks = 0 →
      cubeLoop env window VAO (fuel + 1) w =
          cubeLoop env window VAO fuel
            (cubeFrame env window VAO (glfwWindowShouldClose env window w).2) ∧
        (cubeFrame env window VAO (glfwWindowShouldClose env window w).2).trace =
          w.trace ++
            [ .glfwWindowShouldClose window 0,
              .glClear [.GL_COLOR_BUFFER_BIT, .GL_DEPTH_BUFFER_BIT],
              .glCreateShader .GL_VERTEX_SHADER (env.handle w.allocs),
              .glShaderSource (env.handle w.allocs) 1 cubeVertexShaderSource,
              .glCompileShader (env.handle w.allocs),
              .glCreateShader .GL_FRAGMENT_SHADER (env.handle (w.allocs + 1)),
              .glShaderSource (env.handle (w.allocs + 1)) 1 cubeFragmentShaderSource,
              .glCompileShader (env.handle (w.allocs + 1)),
              .glCreateProgram (env.handle (w.allocs + 2)),
              .glAttachShader (env.handle (w.allocs + 2)) (env.handle w.allocs),
              .glAttachShader (env.handle (w.allocs + 2)) (env.handle (w.allocs + 1)),
              .glLinkProgram (env.handle (w.allocs + 2)),
              .glDeleteShader (env.handle w.allocs),
              .glDeleteShader (env.handle (w.allocs + 1)),
              .glUseProgram (env.handle (w.allocs + 2)),
              .glfwGetTime (env.time w.clock),
              .glGetUniformLocation (env.handle (w.allocs + 2)) "model"
                (env.uniformLocation (env.handle (w.allocs + 2)) "model"),
              .glGetUniformLocation (env.handle (w.allocs + 2)) "view"
                (env.uniformLocation (env.handle (w.allocs + 2)) "view"),
              .glGetUniformLocation (env.handle (w.allocs + 2)) "projection"
                (env.uniformLocation (env.handle (w.allocs + 2)) "projection"),
              .glUniformMatrix4fv (env.uniformLocation (env.handle (w.allocs + 2)) "model")
                1 false (value_ptr (cubeModel env.math (env.time w.clock))),
              .glUniformMatrix4fv (env.uniformLocation (env.handle (w.allocs + 2)) "view")
                1 false (value_ptr (cubeView : Mat4 K)),
              .glUniformMatrix4fv
                (env.uniformLocation (env.handle (w.allocs + 2)) "projection")
                1 false (value_ptr (cubeProjection env.math)),
              .glBindVertexArray VAO,
              .glDrawArrays .GL_TRIANGLES 0 36,
              .glfwSwapBuffers window,
              .glfwPollEvents,
              .glDeleteProgram (env.handle (w.allocs + 2)) ]) ∧
    (∀ (window VAO N fuel : Nat) (w : World K),
      (∀ i, i < N → env.shouldClose (w.checks + i) = 0) →
      env.shouldClose (w.checks + N) ≠ 0 → N < fuel →
      ∃ w1, cubeLoop env window VAO fuel w = some w1 ∧
        w1.trace =
          w.trace ++
          (List.range N).flatMap (fun i =>
              [ .glfwWindowShouldClose window 0,
                .glClear [.GL_COLOR_BUFFER_BIT, .GL_DEPTH_BUFFER_BIT],
                .glCreateShader .GL_VERTEX_SHADER (env.handle (w.allocs + 3 * i)),
                .glShaderSource (env.handle (w.allocs + 3 * i)) 1 cubeVertexShaderSource,
                .glCompileShader (env.handle (w.allocs + 3 * i)),
                .glCreateShader .GL_FRAGMENT_SHADER (env.handle (w.allocs + 3 * i + 1)),
                .glShaderSource (env.handle (w.allocs + 3 * i + 1)) 1 cubeFragmentShaderSource,
                .glCompileShader (env.handle (w.allocs + 3 * i + 1)),
                .glCreateProgram (env.handle (w.allocs + 3 * i + 2)),
                .glAttachShader (env.handle (w.allocs + 3 * i + 2)) (env.handle (w.allocs + 3 * i)),
                .glAttachShader (env.handle (w.allocs + 3 * i + 2)) (env.handle (w.allocs + 3 * i + 1)),
                .glLinkProgram (env.handle (w.allocs + 3 * i + 2)),
                .glDeleteShader (env.handle (w.allocs + 3 * i)),
                .glDeleteShader (env.handle (w.allocs + 3 * i + 1)),
                .glUseProgram (env.handle (w.allocs + 3 * i + 2)),
                .glfwGetTime (env.time (w.clock + i)),
                .glGetUniformLocation (env.handle (w.allocs + 3 * i + 2)) "model"
                  (env.uniformLocation (env.handle (w.allocs + 3 * i + 2)) "model"),
                .glGetUniformLocation (env.handle (w.allocs + 3 * i + 2)) "view"
                  (env.uniformLocation (env.handle (w.allocs + 3 * i + 2)) "view"),
                .glGetUniformLocation (env.handle (w.allocs + 3 * i + 2)) "projection"
                  (env.uniformLocation (env.handle (w.allocs + 3 * i + 2)) "projection"),
                .glUniformMatrix4fv (env.uniformLocation (env.handle (w.allocs + 3 * i + 2)) "model")
                  1 false (value_ptr (cubeModel env.math (env.time (w.clock + i)))),
                .glUniformMatrix4fv (env.uniformLocation (env.handle (w.allocs + 3 * i + 2)) "view")
                  1 false (value_ptr (cubeView : Mat4 K)),
                .glUniformMatrix4fv
                  (env.uniformLocation (env.handle (w.allocs + 3 * i + 2)) "projection")
                  1 false (value_ptr (cubeProjection env.math)),
                .glBindVertexArray VAO,
                .glDrawArrays .GL_TRIANGLES 0 36,
                .glfwSwapBuffers window,
                .glfwPollEvents,
                .glDeleteProgram (env.handle (w.allocs + 3 * i + 2)) ]) ++
          [.glfwWindowShouldClose window (env.shouldClose (w.checks + N))]) ∧
    (∀ N fuel : Nat, env.initResult ≠ 0 → env.windowHandle ≠ 0 → ClosesAt env N →
      N < fuel →
      ∃ w, cubeMain env fuel = some (0, w) ∧
        w.trace =
          [ .glfwInit env.initResult,
            .glfwCreateWindow 800 600 "3D Cube" env.windowHandle,
            .glfwMakeContextCurrent env.windowHandle,
            .glewInit,
            .glGenVertexArrays 1 [env.handle 0],
            .glGenBuffers 1 [env.handle 1],
            .glBindVertexArray (env.handle 0),
            .glBindBuffer .GL_ARRAY_BUFFER (env.handle 1),
            .glBufferData .GL_ARRAY_BUFFER 432 (.floats (cubeVertices K)) .GL_STATIC_DRAW,
            .glVertexAttribPointer 0 3 .GL_FLOAT false 12 0,
            .glEnableVertexAttribArray 0,
            .glBindBuffer .GL_ARRAY_BUFFER 0,
            .glBindVertexArray 0,
            .glEnable .GL_DEPTH_TEST ] ++
          (List.range N).flatMap (fun i =>
              [ .glfwWindowShouldClose env.windowHandle 0,
                .glClear [.GL_COLOR_BUFFER_BIT, .GL_DEPTH_BUFFER_BIT],
                .glCreateShader .GL_VERTEX_SHADER (env.handle (2 + 3 * i)),
                .glShaderSource (env.handle (2 + 3 * i)) 1 cubeVertexShaderSource,
                .glCompileShader (env.handle (2 + 3 * i)),
                .glCreateShader .GL_FRAGMENT_SHADER (env.handle (2 + 3 * i + 1)),
                .glShaderSource (env.handle (2 + 3 * i + 1)) 1 cubeFragmentShaderSource,
                .glCompileShader (env.handle (2 + 3 * i + 1)),
                .glCreateProgram (env.handle (2 + 3 * i + 2)),
                .glAttachShader (env.handle (2 + 3 * i + 2)) (env.handle (2 + 3 * i)),
                .glAttachShader (env.handle (2 + 3 * i + 2)) (env.handle (2 + 3 * i + 1)),
                .glLinkProgram (env.handle (2 + 3 * i + 2)),
                .glDeleteShader (env.handle (2 + 3 * i)),
                .glDeleteShader (env.handle (2 + 3 * i + 1)),
                .glUseProgram (env.handle (2 + 3 * i + 2)),
                .glfwGetTime (env.time i),
                .glGetUniformLocation (env.handle (2 + 3 * i + 2)) "model"
                  (env.uniformLocation (env.handle (2 + 3 * i + 2)) "model"),
                .glGetUniformLocation (env.handle (2 + 3 * i + 2)) "view"
                  (env.uniformLocation (env.handle (2 + 3 * i + 2)) "view"),
                .glGetUniformLocation (env.handle (2 + 3 * i + 2)) "projection"
                  (env.uniformLocation (env.handle (2 + 3 * i + 2)) "projection"),
                .glUniformMatrix4fv (env.uniformLocation (env.handle (2 + 3 * i + 2)) "model")
                  1 false (value_ptr (cubeModel env.math (env.time i))),
                .glUniformMatrix4fv (env.uniformLocation (env.handle (2 + 3 * i + 2)) "view")
                  1 false (value_ptr (cubeView : Mat4 K)),
                .glUniformMatrix4fv
                  (env.uniformLocation (env.handle (2 + 3 * i + 2)) "projection")
                  1 false (value_ptr (cubeProjection env.math)),
                .glBindVertexArray (env.handle 0),
                .glDrawArrays .GL_TRIANGLES 0 36,
                .glfwSwapBuffers env.windowHandle,
                .glfwPollEvents,
                .glDeleteProgram (env.handle (2 + 3 * i + 2)) ]) ++
          [ .glfwWindowShouldClose env.windowHandle (env.shouldClose N),
            .glDeleteVertexArrays 1 [env.handle 0],
            .glDeleteBuffers 1 [env.handle 1],
            .glfwTerminate ]) := by
  refine ⟨?_, ?_, ?_⟩
  · intro window VAO fuel w hopen
    constructor
    · simp [cubeLoop, glfwWindowShouldClose, hopen]
    · simp [cubeFrame_eq, cubeFrameCalls, shaderProgramCalls, glfwWindowShouldClose, emit,
        hopen]
  · intro window VAO N fuel w h0 hN hfuel
    refine ⟨_, cubeLoop_eq env window VAO N fuel w h0 hN hfuel, ?_⟩
    simp [cubeIterations_eq_flatMap, cubeFrameCalls, shaderProgramCalls]
  · intro N fuel hinit hwin hclose hfuel
    refine ⟨_, cubeMain_eq env N fuel hinit hwin hclose hfuel, ?_⟩
    simp [cubeRunCalls, cubeSetupCalls, cubeIterations_eq_flatMap, cubeFrameCalls,
      shaderProgramCalls]

/-- Witness for C1: the sample run of two iterations returns, and its trace has the 14
start-up calls, two iterations of 27 calls and the 4 closing calls. -/
theorem cube_iteration_calls_witness :
    ClosesAt sampleEnv 2 ∧
      ∃ w, cubeMain sampleEnv 3 = some (0, w) ∧ w.trace.length = 14 + 2 * 27 + 4 := by
  obtain ⟨w, h1, h2⟩ :=
    (cube_iteration_calls sampleEnv).2.2 2 3 (by decide) (by decide) sampleEnv_closesAt
      (by decide)
  refine ⟨sampleEnv_closesAt, w, h1, ?_⟩
  rw [h2]
  rfl

/-- Witness for C2: the sample run of two iterations. -/
theorem cube_program_churn_witness :
    ClosesAt sampleEnv 2 ∧
      ∃ w, cubeMain sampleEnv 3 = some (0, w) ∧
        (w.trace.filterMap createdProgram).length = 2 := by
  obtain ⟨w, h1, h2, _⟩ :=
    cube_program_churn sampleEnv 2 3 (by decide) (by decide) sampleEnv_closesAt (by decide)
  exact ⟨sampleEnv_closesAt, w, h1, h2⟩

/-- C7. Lifetime of the persistent driver objects, for a run of either program whose loop
body executes exactly `N` times.  The run returns 0.  Restricted to the calls that
create, upload or delete driver objects, the close checks and `glfwTerminate`, the trace
reads: the creations and uploads of the persistent objects (cube: VAO and VBO; square:
VAO, VBO, EBO and the shader program, whose two stages are created and deleted with it);
then the `N` iterations, each starting with its close check, in which no persistent
object is created, uploaded or deleted (the cube creates and deletes its per-frame
program there, the square nothing); then the closing check, one deletion of each
persistent object, and `glfwTerminate`.  After the run no driver object is live. -/
theorem persistent_resource_lifetime [Field K] (env : Env K) (N fuel : Nat)
    (hinit : env.initResult ≠ 0) (hwin : env.windowHandle ≠ 0) (hclose : ClosesAt env N)
    (hfuel : N < fuel) :
    (∃ w, cubeMain env fuel = some (0, w) ∧
      w.trace.filter isLifetimeEvent =
        [ .glGenVertexArrays 1 [env.handle 0],
          .glGenBuffers 1 [env.handle 1],
          .glBufferData .GL_ARRAY_BUFFER 432 (.floats (cubeVertices K)) .GL_STATIC_DRAW ] ++
        (List.range N).flatMap (fun i =>
          [ .glfwWindowShouldClose env.windowHandle 0,
            .glCreateShader .GL_VERTEX_SHADER (env.handle (2 + 3 * i)),
            .glCreateShader .GL_FRAGMENT_SHADER (env.handle (2 + 3 * i + 1)),
            .glCreateProgram (env.handle (2 + 3 * i + 2)),
            .glDeleteShader (env.handle (2 + 3 * i)),
            .glDeleteShader (env.handle (2 + 3 * i + 1)),
            .glDeleteProgram (env.handle (2 + 3 * i + 2)) ]) ++
        [ .glfwWindowShouldClose env.windowHandle (env.shouldClose N),
          .glDeleteVertexArrays 1 [env.handle 0],
          .glDeleteBuffers 1 [env.handle 1],
          .glfwTerminate ] ∧
      liveAfter w.trace = []) ∧
    (∃ w, squareMain env fuel = some (0, w) ∧
      w.trace.filter isLifetimeEvent =
        [ .glGenVertexArrays 1 [env.handle 0],
          .glGenBuffers 1 [env.handle 1],
          .glGenBuffers 1 [env.handle 2],
          .glBufferData .GL_ARRAY_BUFFER 32 (.floats (squareVertices K)) .GL_STATIC_DRAW,
          .glBufferData .GL_ELEMENT_ARRAY_BUFFER 24 (.uints squareIndices) .GL_STATIC_DRAW,
          .glCreateShader .GL_VERTEX_SHADER (env.handle 3),
          .glCreateShader .GL_FRAGMENT_SHADER (env.handle 4),
          .glCreateProgram (env.handle 5),
          .glDeleteShader (env.handle 3),
          .glDeleteShader (env.handle 4) ] ++
        List.replicate N (.glfwWindowShouldClose env.windowHandle 0) ++
        [ .glfwWindowShouldClose env.windowHandle (env.shouldClose N),
          .glDeleteVertexArrays 1 [env.handle 0],
          .glDeleteBuffers 1 [env.handle 1],
          .glDeleteBuffers 1 [env.handle 2],
          .glDeleteProgram (env.handle 5),
          .glfwTerminate ] ∧
      liveAfter w.trace = []) := by
  refine ⟨⟨_, cubeMain_eq env N fuel hinit hwin hclose hfuel, ?_, liveAfter_cubeRun env N⟩,
    ⟨_, squareMain_eq env N fuel hinit hwin hclose hfuel, ?_, liveAfter_squareRun env N⟩⟩
  · simp [cubeRunCalls, cubeSetupCalls, cubeIterations_eq_flatMap, filter_flatMap,
      cubeFrameCalls, shaderProgramCalls, isLifetimeEvent, List.filter_append,
      List.filter_cons]
  · have hrep : ∀ n : Nat, (List.range n).flatMap
        (fun _ => [(Call.glfwWindowShouldClose env.windowHandle 0 : Call K)]) =
        List.replicate n (.glfwWindowShouldClose env.windowHandle 0) := by
      intro n
      induction n with
      | zero => rfl
      | succ n ih =>
        rw [List.range_succ_eq_map, List.flatMap_cons, List.flatMap_map, ih]
        rfl
    simp [squareRunCalls, squareSetupCalls, squareIterations_eq_flatMap, filter_flatMap,
      squareFrameCalls, shaderProgramCalls, isLifetimeEvent, List.filter_append,
      List.filter_cons, hrep]

/-- Witness for C7: the sample run of two iterations. -/
theorem persistent_resource_lifetime_witness :
    ClosesAt sampleEnv 2 ∧
      (∃ w, cubeMain sampleEnv 3 = some (0, w) ∧ liveAfter w.trace = []) ∧
      (∃ w, squareMain sampleEnv 3 = some (0, w) ∧ liveAfter w.trace = []) := by
  obtain ⟨⟨w, h1, _, h3⟩, ⟨v, g1, _, g3⟩⟩ :=
    persistent_resource_lifetime sampleEnv 2 3 (by decide) (by decide) sampleEnv_closesAt
      (by decide)
  exact ⟨sampleEnv_closesAt, ⟨w, h1, h3⟩, ⟨v, g1, g3⟩⟩

/-- C5 as stated fails: in the first iteration of the sample run the square program
clears the colour target only, so its calls are not the sequence that starts with a
clear of both colour and depth. -/
theorem square_iteration_clear_both_refuted :
    sampleEnv.shouldClose (World.init ℚ).checks = 0 ∧
      (squareFrame 7 1 6 (glfwWindowShouldClose sampleEnv 7 (World.init ℚ)).2).trace ≠
        (World.init ℚ).trace ++
          [ .glfwWindowShouldClose 7 0,
            .glClear [.GL_COLOR_BUFFER_BIT, .GL_DEPTH_BUFFER_BIT],
            .glUseProgram 6,
            .glBindVertexArray 1,
            .glDrawElements .GL_TRIANGLES 6 .GL_UNSIGNED_INT 0,
            .glfwSwapBuffers 7,
            .glfwPollEvents ] := by
  refine ⟨by decide, ?_⟩
  simp [squareFrame, glfwWindowShouldClose, emit, World.init, sampleEnv]

/-- C5, amended.  Square loop, one iteration: in any state in which the close check
answers 0 the loop runs its body once and continues with the same program, and the calls
of that iteration are exactly, in this order: the close check; clear of the colour
target only; activate the program the loop was entered with; bind the VAO; indexed draw
of 6 unsigned-int indices of a triangle list from offset 0; swap buffers; poll events.
In a run whose loop body executes `N` times that program is the one
`createShaderProgram` built during setup, before the first close check, and every one of
the `N` iterations is this same sequence. -/
theorem square_iteration_calls [Field K] (env : Env K) :
    (∀ (window VAO shaderProgram fuel : Nat) (w : World K), env.shouldClose w.checks = 0 →
      squareLoop env window VAO shaderProgram (fuel + 1) w =
          squareLoop env window VAO shaderProgram fuel
            (squareFrame window VAO shaderProgram (glfwWindowShouldClose env window w).2) ∧
        (squareFrame window VAO shaderProgram (glfwWindowShouldClose env window w).2).trace =
          w.trace ++
            [ .glfwWindowShouldClose window 0,
              .glClear [.GL_COLOR_BUFFER_BIT],
              .glUseProgram shaderProgram,
              .glBindVertexArray VAO,
              .glDrawElements .GL_TRIANGLES 6 .GL_UNSIGNED_INT 0,
              .glfwSwapBuffers window,
              .glfwPollEvents ]) ∧
    (∀ N fuel : Nat, env.initResult ≠ 0 → env.windowHandle ≠ 0 → ClosesAt env N →
      N < fuel →
      ∃ w, squareMain env fuel = some (0, w) ∧
        w.trace =
          [ .glfwInit env.initResult,
            .glfwCreateWindow 800 600 "2D Square" env.windowHandle,
            .glfwMakeContextCurrent env.windowHandle,
            .glewInit,
            .glGenVertexArrays 1 [env.handle 0],
            .glGenBuffers 1 [env.handle 1],
            .glGenBuffers 1 [env.handle 2],
            .glBindVertexArray (env.handle 0),
            .glBindBuffer .GL_ARRAY_BUFFER (env.handle 1),
            .glBufferData .GL_ARRAY_BUFFER 32 (.floats (squareVertices K)) .GL_STATIC_DRAW,
            .glBindBuffer .GL_ELEMENT_ARRAY_BUFFER (env.handle 2),
            .glBufferData .GL_ELEMENT_ARRAY_BUFFER 24 (.uints squareIndices)
              .GL_STATIC_DRAW,
            .glVertexAttribPointer 0 2 .GL_FLOAT false 8 0,
            .glEnableVertexAttribArray 0,
            .glBindBuffer .GL_ARRAY_BUFFER 0,
            .glBindVertexArray 0,
            .glCreateShader .GL_VERTEX_SHADER (env.handle 3),
            .glShaderSource (env.handle 3) 1 squareVertexShaderSource,
            .glCompileShader (env.handle 3),
            .glCreateShader .GL_FRAGMENT_SHADER (env.handle 4),
            .glShaderSource (env.handle 4) 1 squareFragmentShaderSource,
            .glCompileShader (env.handle 4),
            .glCreateProgram (env.handle 5),
            .glAttachShader (env.handle 5) (env.handle 3),
            .glAttachShader (env.handle 5) (env.handle 4),
            .glLinkProgram (env.handle 5),
            .glDeleteShader (env.handle 3),
            .glDeleteShader (env.handle 4) ] ++
          (List.range N).flatMap (fun _ =>
            [ .glfwWindowShouldClose env.windowHandle 0,
              .glClear [.GL_COLOR_BUFFER_BIT],
              .glUseProgram (env.handle 5),
              .glBindVertexArray (env.handle 0),
              .glDrawElements .GL_TRIANGLES 6 .GL_UNSIGNED_INT 0,
              .glfwSwapBuffers env.windowHandle,
              .glfwPollEvents ]) ++
          [ .glfwWindowShouldClose env.windowHandle (env.shouldClose N),
            .glDeleteVertexArrays 1 [env.handle 0],
            .glDeleteBuffers 1 [env.handle 1],
            .glDeleteBuffers 1 [env.handle 2],
            .glDeleteProgram (env.handle 5),
            .glfwTerminate ]) := by
  constructor
  · intro window VAO shaderProgram fuel w hopen
    constructor
    · simp [squareLoop, glfwWindowShouldClose, hopen]
    · simp [squareFrame_eq, squareFrameCalls, glfwWindowShouldClose, emit, hopen]
  · intro N fuel hinit hwin hclose hfuel
    refine ⟨_, squareMain_eq env N fuel hinit hwin hclose hfuel, ?_⟩
    simp [squareRunCalls, squareSetupCalls, squareIterations_eq_flatMap, squareFrameCalls,
      shaderProgramCalls]

/-- Witness for C5 amended: the first iteration of the sample run. -/
theorem square_iteration_calls_witness :
    sampleEnv.shouldClose (World.init ℚ).checks = 0 ∧
      squareLoop sampleEnv 7 1 6 3 (World.init ℚ) =
        squareLoop sampleEnv 7 1 6 2
          (squareFrame 7 1 6 (glfwWindowShouldClose sampleEnv 7 (World.init ℚ)).2) :=
  ⟨by decide,
    ((square_iteration_calls sampleEnv).1 7 1 6 2 (World.init ℚ) (by decide)).1⟩

end TraceClaims

/-! ## Claims about the vertex tables -/

section GeometryLemmas
variable {K : Type} [LinearOrderedField K]

theorem edgeFn_sum (a b c p : Vec2 K) :
    edgeFn b c p + edgeFn c a p + edgeFn a b p = edgeFn a b c := by
  simp only [edgeFn]
  ring

/-- For a non-degenerate triangle, `InTriangle` is membership in the convex hull of the
three vertices. -/
theorem inTriangle_iff_convex (a b c p : Vec2 K) (h : edgeFn a b c ≠ 0) :
    InTriangle a b c p ↔
      ∃ α β γ : K, 0 ≤ α ∧ 0 ≤ β ∧ 0 ≤ γ ∧ α + β + γ = 1 ∧
        p.x = α * a.x + β * b.x + γ * c.x ∧ p.y = α * a.y + β * b.y + γ * c.y := by
  have hsum := edgeFn_sum a b c p
  constructor
  · intro hin
    refine ⟨edgeFn b c p / edgeFn a b c, edgeFn c a p / edgeFn a b c,
      edgeFn a b p / edgeFn a b c, ?_, ?_, ?_, ?_, ?_, ?_⟩
    · rcases hin with ⟨h1, h2, h3⟩ | ⟨h1, h2, h3⟩
      · exact div_nonneg h2 (by linarith)
      · exact div_nonneg_of_nonpos h2 (by linarith)
    · rcases hin with ⟨h1, h2, h3⟩ | ⟨h1, h2, h3⟩
      · exact div_nonneg h3 (by linarith)
      · exact div_nonneg_of_nonpos h3 (by linarith)
    · rcases hin with ⟨h1, h2, h3⟩ | ⟨h1, h2, h3⟩
      · exact div_nonneg h1 (by linarith)
      · exact div_nonneg_of_nonpos h1 (by linarith)
    · rw [← add_div, ← add_div, hsum, div_self h]
    · field_simp
      simp only [edgeFn]
      ring
    · field_simp
      simp only [edgeFn]
      ring
  · rintro ⟨α, β, γ, hα, hβ, hγ, h1, hx, hy⟩
    have e1 : edgeFn a b p = γ * edgeFn a b c := by
      have hα' : α = 1 - β - γ := by linarith
      simp only [edgeFn, hx, hy, hα']
      ring
    have e2 : edgeFn b c p = α * edgeFn a b c := by
      have hβ' : β = 1 - α - γ := by linarith
      simp only [edgeFn, hx, hy, hβ']
      ring
    have e3 : edgeFn c a p = β * edgeFn a b c := by
      have hγ' : γ = 1 - α - β := by linarith
      simp only [edgeFn, hx, hy, hγ']
      ring
    rcases le_total 0 (edgeFn a b c) with hd | hd
    · left
      rw [e1, e2, e3]
      exact ⟨mul_nonneg hγ hd, mul_nonneg hα hd, mul_nonneg hβ hd⟩
    · right
      rw [e1, e2, e3]
      exact ⟨mul_nonpos_of_nonneg_of_nonpos hγ hd, mul_nonpos_of_nonneg_of_nonpos hα hd,
        mul_nonpos_of_nonneg_of_nonpos hβ hd⟩

/-- For distinct end points, `OnSegment` is membership in the segment they span. -/
theorem onSegment_iff_convex (a b p : Vec2 K) (h : a ≠ b) :
    OnSegment a b p ↔
      ∃ s : K, 0 ≤ s ∧ s ≤ 1 ∧ p.x = a.x + s * (b.x - a.x) ∧ p.y = a.y + s * (b.y - a.y) := by
  have hq : 0 < (b.x - a.x) * (b.x - a.x) + (b.y - a.y) * (b.y - a.y) := by
    have hne : b.x - a.x ≠ 0 ∨ b.y - a.y ≠ 0 := by
      by_contra hcon
      push_neg at hcon
      apply h
      cases a
      cases b
      simp only [Vec2.mk.injEq]
      constructor <;> linarith [hcon.1, hcon.2]
    rcases hne with h1 | h1
    · have := mul_self_pos.mpr h1
      have := mul_self_nonneg (b.y - a.y)
      linarith
    · have := mul_self_pos.mpr h1
      have := mul_self_nonneg (b.x - a.x)
      linarith
  constructor
  · rintro ⟨h0, h1, h2⟩
    simp only [edgeFn] at h0
    have hs : ((p.x - a.x) * (b.x - a.x) + (p.y - a.y) * (b.y - a.y)) /
        ((b.x - a.x) * (b.x - a.x) + (b.y - a.y) * (b.y - a.y)) *
        ((b.x - a.x) * (b.x - a.x) + (b.y - a.y) * (b.y - a.y)) =
        (p.x - a.x) * (b.x - a.x) + (p.y - a.y) * (b.y - a.y) :=
      div_mul_cancel₀ _ hq.ne.symm
    refine ⟨((p.x - a.x) * (b.x - a.x) + (p.y - a.y) * (b.y - a.y)) /
      ((b.x - a.x) * (b.x - a.x) + (b.y - a.y) * (b.y - a.y)), div_nonneg h1 hq.le,
      (div_le_one hq).mpr h2, ?_, ?_⟩
    · generalize ((p.x - a.x) * (b.x - a.x) + (p.y - a.y) * (b.y - a.y)) /
        ((b.x - a.x) * (b.x - a.x) + (b.y - a.y) * (b.y - a.y)) = s at hs ⊢
      have hz : (p.x - (a.x + s * (b.x - a.x))) *
          ((b.x - a.x) * (b.x - a.x) + (b.y - a.y) * (b.y - a.y)) = 0 := by
        linear_combination (-(b.y - a.y)) * h0 - (b.x - a.x) * hs
      rcases mul_eq_zero.mp hz with hz | hz
      · exact sub_eq_zero.mp hz
      · exact absurd hz hq.ne.symm
    · generalize ((p.x - a.x) * (b.x - a.x) + (p.y - a.y) * (b.y - a.y)) /
        ((b.x - a.x) * (b.x - a.x) + (b.y - a.y) * (b.y - a.y)) = s at hs ⊢
      have hz : (p.y - (a.y + s * (b.y - a.y))) *
          ((b.x - a.x) * (b.x - a.x) + (b.y - a.y) * (b.y - a.y)) = 0 := by
        linear_combination (b.x - a.x) * h0 - (b.y - a.y) * hs
      rcases mul_eq_zero.mp hz with hz | hz
      · exact sub_eq_zero.mp hz
      · exact absurd hz hq.ne.symm
  · rintro ⟨s, hs0, hs1, hx, hy⟩
    refine ⟨?_, ?_, ?_⟩
    · simp only [edgeFn, hx, hy]
      ring
    · have : (p.x - a.x) * (b.x - a.x) + (p.y - a.y) * (b.y - a.y) =
          s * ((b.x - a.x) * (b.x - a.x) + (b.y - a.y) * (b.y - a.y)) := by
        rw [hx, hy]
        ring
      rw [this]
      exact mul_nonneg hs0 hq.le
    · have : (p.x - a.x) * (b.x - a.x) + (p.y - a.y) * (b.y - a.y) =
          s * ((b.x - a.x) * (b.x - a.x) + (b.y - a.y) * (b.y - a.y)) := by
        rw [hx, hy]
        ring
      rw [this]
      exact mul_le_of_le_one_left hq.le hs1

end GeometryLemmas

section GeometryClaims
variable (K : Type) [LinearOrderedField K]

theorem cubeFace_table :
    [0, 1, 2, 3, 4, 5].map (cubeFace K) =
      [ [⟨-0.5, -0.5, -0.5⟩, ⟨0.5, -0.5, -0.5⟩, ⟨0.5, 0.5, -0.5⟩,
         ⟨0.5, 0.5, -0.5⟩, ⟨-0.5, 0.5, -0.5⟩, ⟨-0.5, -0.5, -0.5⟩],
        [⟨-0.5, -0.5, 0.5⟩, ⟨0.5, -0.5, 0.5⟩, ⟨0.5, 0.5, 0.5⟩,
         ⟨0.5, 0.5, 0.5⟩, ⟨-0.5, 0.5, 0.5⟩, ⟨-0.5, -0.5, 0.5⟩],
        [⟨-0.5, 0.5, 0.5⟩, ⟨-0.5, 0.5, -0.5⟩, ⟨-0.5, -0.5, -0.5⟩,
         ⟨-0.5, -0.5, -0.5⟩, ⟨-0.5, -0.5, 0.5⟩, ⟨-0.5, 0.5, 0.5⟩],
        [⟨0.5, 0.5, 0.5⟩, ⟨0.5, 0.5, -0.5⟩, ⟨0.5, -0.5, -0.5⟩,
         ⟨0.5, -0.5, -0.5⟩, ⟨0.5, -0.5, 0.5⟩, ⟨0.5, 0.5, 0.5⟩],
        [⟨-0.5, -0.5, -0.5⟩, ⟨0.5, -0.5, -0.5⟩, ⟨0.5, -0.5, 0.5⟩,
         ⟨0.5, -0.5, 0.5⟩, ⟨-0.5, -0.5, 0.5⟩, ⟨-0.5, -0.5, -0.5⟩],
        [⟨-0.5, 0.5, -0.5⟩, ⟨0.5, 0.5, -0.5⟩, ⟨0.5, 0.5, 0.5⟩,
         ⟨0.5, 0.5, 0.5⟩, ⟨-0.5, 0.5, 0.5⟩, ⟨-0.5, 0.5, -0.5⟩] ] := rfl

theorem sharedPlanes_cubeFace :
    [0, 1, 2, 3, 4, 5].map (fun g => sharedPlanes (cubeFace K g)) =
      [[(2, -0.5)], [(2, 0.5)], [(0, -0.5)], [(0, 0.5)], [(1, -0.5)], [(1, 0.5)]] := by
  have h := cubeFace_table K
  simp only [List.map, List.cons.injEq, and_true] at h
  obtain ⟨h0, h1, h2, h3, h4, h5⟩ := h
  simp only [List.map, h0, h1, h2, h3, h4, h5, sharedPlanes, Vec3.coord, List.all_cons,
    List.all_nil, List.filter]
  norm_num

theorem splitsSquare_lower_cover (p : Vec2 K) :
    InSquare p ↔
      InTriangle (⟨-0.5, -0.5⟩ : Vec2 K) ⟨0.5, -0.5⟩ ⟨0.5, 0.5⟩ p ∨
        InTriangle (⟨0.5, 0.5⟩ : Vec2 K) ⟨-0.5, 0.5⟩ ⟨-0.5, -0.5⟩ p := by
  simp only [InTriangle, InSquare, edgeFn]
  norm_num
  constructor
  · rintro ⟨h1, h2, h3, h4⟩
    rcases le_total p.x p.y with h | h
    · refine Or.inr (Or.inl ⟨?_, ?_, ?_⟩) <;> linarith
    · refine Or.inl (Or.inl ⟨?_, ?_, ?_⟩) <;> linarith
  · rintro ((⟨h1, h2, h3⟩ | ⟨h1, h2, h3⟩) | (⟨h1, h2, h3⟩ | ⟨h1, h2, h3⟩)) <;>
      refine ⟨?_, ?_, ?_, ?_⟩ <;> linarith

theorem splitsSquare_lower_overlap (p : Vec2 K) :
    InTriangle (⟨-0.5, -0.5⟩ : Vec2 K) ⟨0.5, -0.5⟩ ⟨0.5, 0.5⟩ p ∧
        InTriangle (⟨0.5, 0.5⟩ : Vec2 K) ⟨-0.5, 0.5⟩ ⟨-0.5, -0.5⟩ p ↔
      OnSegment (⟨-0.5, -0.5⟩ : Vec2 K) ⟨0.5, 0.5⟩ p := by
  simp only [InTriangle, OnSegment, edgeFn]
  norm_num
  constructor
  · rintro ⟨(⟨h1, h2, h3⟩ | ⟨h1, h2, h3⟩), (⟨g1, g2, g3⟩ | ⟨g1, g2, g3⟩)⟩ <;>
      refine ⟨?_, ?_, ?_⟩ <;> linarith
  · rintro ⟨h1, h2, h3⟩
    have hxy : p.y = p.x := sub_eq_zero.mp h1
    refine ⟨Or.inl ⟨?_, ?_, ?_⟩, Or.inl ⟨?_, ?_, ?_⟩⟩ <;> linarith

theorem splitsSquare_lower :
    SplitsSquare (⟨-0.5, -0.5⟩ : Vec2 K) ⟨0.5, -0.5⟩ ⟨0.5, 0.5⟩ ⟨-0.5, 0.5⟩ := by
  refine ⟨?_, ?_, ?_, ?_, ?_, splitsSquare_lower_cover K, splitsSquare_lower_overlap K⟩
  · show (-0.5 : K) ≠ 0.5
    norm_num
  · show (-0.5 : K) ≠ 0.5
    norm_num
  · simp only [edgeFn]
    norm_num
  · simp only [edgeFn]
    norm_num
  · simp only [triangleArea, edgeFn]
    norm_num

theorem splitsSquare_upper_cover (p : Vec2 K) :
    InSquare p ↔
      InTriangle (⟨0.5, 0.5⟩ : Vec2 K) ⟨0.5, -0.5⟩ ⟨-0.5, -0.5⟩ p ∨
        InTriangle (⟨-0.5, -0.5⟩ : Vec2 K) ⟨-0.5, 0.5⟩ ⟨0.5, 0.5⟩ p := by
  simp only [InTriangle, InSquare, edgeFn]
  norm_num
  constructor
  · rintro ⟨h1, h2, h3, h4⟩
    rcases le_total p.x p.y with h | h
    · refine Or.inr (Or.inr ⟨?_, ?_, ?_⟩) <;> linarith
    · refine Or.inl (Or.inr ⟨?_, ?_, ?_⟩) <;> linarith
  · rintro ((⟨h1, h2, h3⟩ | ⟨h1, h2, h3⟩) | (⟨h1, h2, h3⟩ | ⟨h1, h2, h3⟩)) <;>
      refine ⟨?_, ?_, ?_, ?_⟩ <;> linarith

theorem splitsSquare_upper_overlap (p : Vec2 K) :
    InTriangle (⟨0.5, 0.5⟩ : Vec2 K) ⟨0.5, -0.5⟩ ⟨-0.5, -0.5⟩ p ∧
        InTriangle (⟨-0.5, -0.5⟩ : Vec2 K) ⟨-0.5, 0.5⟩ ⟨0.5, 0.5⟩ p ↔
      OnSegment (⟨0.5, 0.5⟩ : Vec2 K) ⟨-0.5, -0.5⟩ p := by
  simp only [InTriangle, OnSegment, edgeFn]
  norm_num
  constructor
  · rintro ⟨(⟨h1, h2, h3⟩ | ⟨h1, h2, h3⟩), (⟨g1, g2, g3⟩ | ⟨g1, g2, g3⟩)⟩ <;>
      refine ⟨?_, ?_, ?_⟩ <;> linarith
  · rintro ⟨h1, h2, h3⟩
    have hxy : p.x = p.y := sub_eq_zero.mp h1
    refine ⟨Or.inr ⟨?_, ?_, ?_⟩, Or.inr ⟨?_, ?_, ?_⟩⟩ <;> linarith

theorem splitsSquare_upper :
    SplitsSquare (⟨0.5, 0.5⟩ : Vec2 K) ⟨0.5, -0.5⟩ ⟨-0.5, -0.5⟩ ⟨-0.5, 0.5⟩ := by
  refine ⟨?_, ?_, ?_, ?_, ?_, splitsSquare_upper_cover K, splitsSquare_upper_overlap K⟩
  · show (0.5 : K) ≠ -0.5
    norm_num
  · show (0.5 : K) ≠ -0.5
    norm_num
  · simp only [edgeFn]
    norm_num
  · simp only [edgeFn]
    norm_num
  · simp only [triangleArea, edgeFn]
    norm_num

/-- C3. The cube table, three floats per vertex.  It holds 36 vertices, which is the count
of the draw call in the loop body, and every coordinate is 0.5 or -0.5.  The six consecutive groups of six vertices lie, in this
order, in the planes z = -0.5, z = 0.5, x = -0.5, x = 0.5, y = -0.5, y = 0.5, and each
group lies in no other coordinate plane.  In each group the six vertices read
`A, B, C, C, D, A`, so its triangles `A B C` and `C D A` share the edge `A C`; seen in
the two free coordinates, `A C` is a diagonal of the face, both triangles are
non-degenerate, their areas add up to 1, and a point of the plane lies in the face
square exactly when it lies in one of the two triangles (and in both exactly when it is
on the diagonal). -/
theorem cube_geometry :
    (cubeVertices K).length = 3 * 36 ∧
    (∀ (env : Env K) (window VAO : Nat) (w : World K),
      Call.glDrawArrays .GL_TRIANGLES 0 ((cubeVertices K).length / 3) ∈
        (cubeFrame env window VAO w).trace) ∧
    (∀ c ∈ cubeVertices K, c = 0.5 ∨ c = -0.5) ∧
    [0, 1, 2, 3, 4, 5].map (fun g => sharedPlanes (cubeFace K g)) =
      [[(2, -0.5)], [(2, 0.5)], [(0, -0.5)], [(0, 0.5)], [(1, -0.5)], [(1, 0.5)]] ∧
    (∀ g, g < 6 → ∀ pl ∈ sharedPlanes (cubeFace K g), ∃ A B C D : Vec3 K,
      cubeFace K g = [A, B, C, C, D, A] ∧
      triangles (cubeFace K g) = [(A, B, C), (C, D, A)] ∧
      (A.dropAxis pl.1).x ≠ (C.dropAxis pl.1).x ∧
      (A.dropAxis pl.1).y ≠ (C.dropAxis pl.1).y ∧
      edgeFn (A.dropAxis pl.1) (B.dropAxis pl.1) (C.dropAxis pl.1) ≠ 0 ∧
      edgeFn (C.dropAxis pl.1) (D.dropAxis pl.1) (A.dropAxis pl.1) ≠ 0 ∧
      triangleArea (A.dropAxis pl.1) (B.dropAxis pl.1) (C.dropAxis pl.1) +
        triangleArea (C.dropAxis pl.1) (D.dropAxis pl.1) (A.dropAxis pl.1) = 1 ∧
      (∀ p, InSquare p ↔
        InTriangle (A.dropAxis pl.1) (B.dropAxis pl.1) (C.dropAxis pl.1) p ∨
          InTriangle (C.dropAxis pl.1) (D.dropAxis pl.1) (A.dropAxis pl.1) p) ∧
      (∀ p, InTriangle (A.dropAxis pl.1) (B.dropAxis pl.1) (C.dropAxis pl.1) p ∧
          InTriangle (C.dropAxis pl.1) (D.dropAxis pl.1) (A.dropAxis pl.1) p ↔
        OnSegment (A.dropAxis pl.1) (C.dropAxis pl.1) p)) := by
  have hpl := sharedPlanes_cubeFace K
  refine ⟨rfl, ?_, ?_, hpl, ?_⟩
  · intro env window VAO w
    have hlen : (cubeVertices K).length = 108 := rfl
    have h36 : (cubeVertices K).length / 3 = 36 := by rw [hlen]
    simp [cubeFrame_eq, cubeFrameCalls, h36]
  · intro c hc
    simp only [cubeVertices, List.mem_cons, List.mem_singleton, List.not_mem_nil,
      or_false] at hc
    rcases hc with h | h | h | h | h | h | h | h | h | h | h | h | h | h | h | h | h | h |
      h | h | h | h | h | h | h | h | h | h | h | h | h | h | h | h | h | h | h | h | h |
      h | h | h | h | h | h | h | h | h | h | h | h | h | h | h | h | h | h | h | h | h |
      h | h | h | h | h | h | h | h | h | h | h | h | h | h | h | h | h | h | h | h | h |
      h | h | h | h | h | h | h | h | h | h | h | h | h | h | h | h | h | h | h | h | h |
      h | h | h | h | h | h <;> simp [h]
  · simp only [List.map, List.cons.injEq, and_true] at hpl
    obtain ⟨h0, h1, h2, h3, h4, h5⟩ := hpl
    intro g hg pl hmem
    interval_cases g
    · rw [h0, List.mem_singleton] at hmem
      subst hmem
      exact ⟨_, _, _, _, rfl, rfl, splitsSquare_lower K⟩
    · rw [h1, List.mem_singleton] at hmem
      subst hmem
      exact ⟨_, _, _, _, rfl, rfl, splitsSquare_lower K⟩
    · rw [h2, List.mem_singleton] at hmem
      subst hmem
      exact ⟨_, _, _, _, rfl, rfl, splitsSquare_upper K⟩
    · rw [h3, List.mem_singleton] at hmem
      subst hmem
      exact ⟨_, _, _, _, rfl, rfl, splitsSquare_upper K⟩
    · rw [h4, List.mem_singleton] at hmem
      subst hmem
      exact ⟨_, _, _, _, rfl, rfl, splitsSquare_lower K⟩
    · rw [h5, List.mem_singleton] at hmem
      subst hmem
      exact ⟨_, _, _, _, rfl, rfl, splitsSquare_lower K⟩

theorem squareVertex_table :
    [0, 1, 2, 3].map (squareVertex K) =
      [⟨0.5, 0.5⟩, ⟨0.5, -0.5⟩, ⟨-0.5, -0.5⟩, ⟨-0.5, 0.5⟩] := rfl

theorem square_cover (p : Vec2 K) :
    InTriangle (⟨0.5, 0.5⟩ : Vec2 K) ⟨0.5, -0.5⟩ ⟨-0.5, 0.5⟩ p ∨
        InTriangle (⟨0.5, -0.5⟩ : Vec2 K) ⟨-0.5, -0.5⟩ ⟨-0.5, 0.5⟩ p ↔
      InSquare p := by
  simp only [InTriangle, InSquare, edgeFn]
  norm_num
  constructor
  · rintro ((⟨h1, h2, h3⟩ | ⟨h1, h2, h3⟩) | (⟨h1, h2, h3⟩ | ⟨h1, h2, h3⟩)) <;>
      refine ⟨?_, ?_, ?_, ?_⟩ <;> linarith
  · rintro ⟨h1, h2, h3, h4⟩
    rcases le_total (p.x + p.y) 0 with h | h
    · refine Or.inr (Or.inr ⟨?_, ?_, ?_⟩) <;> linarith
    · refine Or.inl (Or.inr ⟨?_, ?_, ?_⟩) <;> linarith

theorem square_overlap (p : Vec2 K) :
    InTriangle (⟨0.5, 0.5⟩ : Vec2 K) ⟨0.5, -0.5⟩ ⟨-0.5, 0.5⟩ p ∧
        InTriangle (⟨0.5, -0.5⟩ : Vec2 K) ⟨-0.5, -0.5⟩ ⟨-0.5, 0.5⟩ p ↔
      OnSegment (⟨0.5, -0.5⟩ : Vec2 K) ⟨-0.5, 0.5⟩ p := by
  simp only [InTriangle, OnSegment, edgeFn]
  norm_num
  constructor
  · rintro ⟨(⟨h1, h2, h3⟩ | ⟨h1, h2, h3⟩), (⟨g1, g2, g3⟩ | ⟨g1, g2, g3⟩)⟩ <;>
      refine ⟨?_, ?_, ?_⟩ <;> linarith
  · rintro ⟨h1, h2, h3⟩
    refine ⟨Or.inr ⟨?_, ?_, ?_⟩, Or.inr ⟨?_, ?_, ?_⟩⟩ <;> linarith

/-- C4. The square tables, two floats per vertex.  There are 4 vertices and 6 indices,
every index is below 4, and the count of the indexed draw issued by the loop body is the
number of indices.  The indices assemble into the triples (0,1,3) and (1,2,3).  The two
triangles they select are non-degenerate; a point of the plane lies in both exactly when
it lies on their common edge from vertex 1 to vertex 3; and a point lies in at least one
of them exactly when it lies in the square [-0.5, 0.5] x [-0.5, 0.5]. -/
theorem square_geometry :
    (squareVertices K).length = 2 * 4 ∧
    squareIndices.length = 6 ∧
    (∀ i ∈ squareIndices, i < 4) ∧
    (∀ (window VAO shaderProgram : Nat) (w : World K),
      Call.glDrawElements .GL_TRIANGLES squareIndices.length .GL_UNSIGNED_INT 0 ∈
        (squareFrame window VAO shaderProgram w).trace) ∧
    triangles squareIndices = [(0, 1, 3), (1, 2, 3)] ∧
    edgeFn (squareVertex K 0) (squareVertex K 1) (squareVertex K 3) ≠ 0 ∧
    edgeFn (squareVertex K 1) (squareVertex K 2) (squareVertex K 3) ≠ 0 ∧
    (∀ p, InTriangle (squareVertex K 0) (squareVertex K 1) (squareVertex K 3) p ∧
        InTriangle (squareVertex K 1) (squareVertex K 2) (squareVertex K 3) p ↔
      OnSegment (squareVertex K 1) (squareVertex K 3) p) ∧
    (∀ p, InTriangle (squareVertex K 0) (squareVertex K 1) (squareVertex K 3) p ∨
        InTriangle (squareVertex K 1) (squareVertex K 2) (squareVertex K 3) p ↔
      InSquare p) := by
  have h := squareVertex_table K
  simp only [List.map, List.cons.injEq, and_true] at h
  obtain ⟨h0, h1, h2, h3⟩ := h
  rw [h0, h1, h2, h3]
  refine ⟨rfl, rfl, by decide, ?_, rfl, ?_, ?_, square_overlap K, square_cover K⟩
  · intro window VAO shaderProgram w
    simp [squareFrame, emit, squareIndices]
  · simp only [edgeFn]
    norm_num
  · simp only [edgeFn]
    norm_num

end GeometryClaims

/-! ## Claims about the transforms -/

section TransformClaims

theorem cubeModel_real (L : MathLib ℝ) (hcos : L.cos = Real.cos) (hsin : L.sin = Real.sin)
    (hsqrt : L.inversesqrt = fun x => 1 / Real.sqrt x) (t : ℝ) :
    cubeModel L t =
      ⟨⟨(1 + Real.cos t) / 2, (1 - Real.cos t) / 2, -(Real.sin t * (1 / Real.sqrt 2)), 0⟩,
       ⟨(1 - Real.cos t) / 2, (1 + Real.cos t) / 2, Real.sin t * (1 / Real.sqrt 2), 0⟩,
       ⟨Real.sin t * (1 / Real.sqrt 2), -(Real.sin t * (1 / Real.sqrt 2)), Real.cos t, 0⟩,
       ⟨0, 0, 0, 1⟩⟩ := by
  have h2 : (1 / Real.sqrt 2) * (1 / Real.sqrt 2) = 1 / 2 := by
    rw [div_mul_div_comm, Real.mul_self_sqrt (by norm_num)]
    norm_num
  have hd : (1 : ℝ) * 1 + 1 * 1 + 0 * 0 = 2 := by norm_num
  simp only [cubeModel, rotate, normalize, Vec3.smul, Vec3.dot, Mat4.diag, Vec4.scale,
    Vec4.add, hcos, hsin, hsqrt, hd]
  generalize (1 / Real.sqrt 2) = r at h2 ⊢
  simp only [Mat4.mk.injEq, Vec4.mk.injEq]
  refine ⟨⟨?_, ?_, ?_, ?_⟩, ⟨?_, ?_, ?_, ?_⟩, ⟨?_, ?_, ?_, ?_⟩, trivial⟩
  all_goals first | ring1 | linear_combination (1 - Real.cos t) * h2

theorem sin_mul_inversesqrt_two_sq (t : ℝ) :
    (Real.sin t * (1 / Real.sqrt 2)) * (Real.sin t * (1 / Real.sqrt 2)) =
      (1 - Real.cos t * Real.cos t) / 2 := by
  have h2 : (1 / Real.sqrt 2) * (1 / Real.sqrt 2) = 1 / 2 := by
    rw [div_mul_div_comm, Real.mul_self_sqrt (by norm_num)]
    norm_num
  have hcs := Real.sin_sq_add_cos_sq t
  generalize (1 / Real.sqrt 2) = r at h2 ⊢
  linear_combination (Real.sin t * Real.sin t) * h2 + (1 / 2) * hcs

/-- C9. The model matrix of cube.cpp line 163 over the reals, with the real cosine, sine
and inverse square root as the math library.  At time 0 it is the identity.  At every
time `t` it maps (1,1,0,0) to itself and (0,0,1,0) to
sin t * (1,-1,0,0)/sqrt 2 + cos t * (0,0,1,0), which is the turn by `t` in the
right-handed sense about (1,1,0); its upper-left 3x3 block is orthogonal with
determinant 1 and trace 1 + 2 cos t, and its last column and last row are those of the
identity. -/
theorem cube_model_rotation (t : ℝ) :
    let L : MathLib ℝ := ⟨Real.cos, Real.sin, Real.tan, fun x => 1 / Real.sqrt x, Real.pi⟩
    cubeModel L 0 = Mat4.diag 1 ∧
    (cubeModel L t).mulVec ⟨1, 1, 0, 0⟩ = ⟨1, 1, 0, 0⟩ ∧
    (cubeModel L t).mulVec ⟨0, 0, 1, 0⟩ =
      ⟨Real.sin t * (1 / Real.sqrt 2), -(Real.sin t * (1 / Real.sqrt 2)), Real.cos t, 0⟩ ∧
    (cubeModel L t).upper3 * (cubeModel L t).upper3.transpose = 1 ∧
    (cubeModel L t).upper3.transpose * (cubeModel L t).upper3 = 1 ∧
    (cubeModel L t).upper3.det = 1 ∧
    (cubeModel L t).upper3.trace = 1 + 2 * Real.cos t ∧
    (cubeModel L t).c3 = ⟨0, 0, 0, 1⟩ ∧
    (cubeModel L t).c0.w = 0 ∧ (cubeModel L t).c1.w = 0 ∧ (cubeModel L t).c2.w = 0 := by
  intro L
  have he := sin_mul_inversesqrt_two_sq t
  rw [cubeModel_real L rfl rfl rfl, cubeModel_real L rfl rfl rfl]
  generalize Real.sin t * (1 / Real.sqrt 2) = e at he ⊢
  refine ⟨?_, ?_, ?_, ?_, ?_, ?_, ?_, rfl, rfl, rfl, rfl⟩
  · simp [Mat4.diag]
  · simp only [Mat4.mulVec, Vec4.add, Vec4.scale, Vec4.mk.injEq]
    refine ⟨?_, ?_, ?_, ?_⟩ <;> ring
  · simp only [Mat4.mulVec, Vec4.add, Vec4.scale, Vec4.mk.injEq]
    refine ⟨?_, ?_, ?_, ?_⟩ <;> ring
  · ext i j
    fin_cases i <;> fin_cases j <;>
      simp [Matrix.mul_apply, Fin.sum_univ_three, Mat4.upper3, Matrix.one_apply] <;>
      first
      | ring1
      | linear_combination he
      | linear_combination (-1 : ℝ) * he
      | linear_combination (2 : ℝ) * he
  · ext i j
    fin_cases i <;> fin_cases j <;>
      simp [Matrix.mul_apply, Fin.sum_univ_three, Mat4.upper3, Matrix.one_apply] <;>
      first
      | ring1
      | linear_combination he
      | linear_combination (-1 : ℝ) * he
      | linear_combination (2 : ℝ) * he
  · simp [Matrix.det_fin_three, Mat4.upper3]
    linear_combination (2 : ℝ) * he
  · simp [Matrix.trace, Fin.sum_univ_three, Mat4.upper3]
    ring

/-- C10. The projection matrix of cube.cpp line 165 over the reals, with the real tangent
and pi as the math library.  The on-axis point of the near plane, view-space
(0, 0, -0.1, 1), is mapped to a clip-space point with x = 0, y = 0, w = 0.1 and
z / w = -1; the on-axis point of the far plane, view-space (0, 0, -100, 1), to one with
x = 0, y = 0, w = 100 and z / w = 1. -/
theorem cube_projection_depth :
    let L : MathLib ℝ := ⟨Real.cos, Real.sin, Real.tan, fun x => 1 / Real.sqrt x, Real.pi⟩
    ((cubeProjection L).mulVec ⟨0, 0, -0.1, 1⟩).x = 0 ∧
    ((cubeProjection L).mulVec ⟨0, 0, -0.1, 1⟩).y = 0 ∧
    ((cubeProjection L).mulVec ⟨0, 0, -0.1, 1⟩).w = 0.1 ∧
    ((cubeProjection L).mulVec ⟨0, 0, -0.1, 1⟩).z /
      ((cubeProjection L).mulVec ⟨0, 0, -0.1, 1⟩).w = -1 ∧
    ((cubeProjection L).mulVec ⟨0, 0, -100, 1⟩).x = 0 ∧
    ((cubeProjection L).mulVec ⟨0, 0, -100, 1⟩).y = 0 ∧
    ((cubeProjection L).mulVec ⟨0, 0, -100, 1⟩).w = 100 ∧
    ((cubeProjection L).mulVec ⟨0, 0, -100, 1⟩).z /
      ((cubeProjection L).mulVec ⟨0, 0, -100, 1⟩).w = 1 := by
  intro L
  simp only [cubeProjection, perspective, Mat4.mulVec, Vec4.add, Vec4.scale]
  norm_num

end TransformClaims

end CubeRenderer
